import Mathlib

/-!
# Verification of the mobileDOPE-api DOPE-card domain core

A shallow embedding of the DOPE-card domain model of the mobileDOPE-api
repository: the unit/derived-value functions, the Sequelize model hooks and
validators, the MySQL generated columns of the init schema, and the
controller-level create/update/read operations, together with theorems about
the invariants those pieces enforce.

Numeric values are embedded as exact rationals (JS numbers and SQL DECIMALs
are both abstracted to ℚ; fixed-point storage precision is not modelled).
Nullable / optional JS values are embedded as Option. Database ids are ℕ,
with AUTO_INCREMENT modelled by a nextId counter on the store.
-/

namespace MobileDope

/-- Distance unit enum of dope_logs.distance_unit (ENUM('yards','meters')). -/
inductive DistanceUnit
  | yards
  | meters
deriving DecidableEq

/-- Correction unit enum of dope_logs.correction_unit (ENUM('MIL','MOA')). -/
inductive CorrectionUnit
  | MIL
  | MOA
deriving DecidableEq

/-- Target type enum of dope_logs.target_type. -/
inductive TargetType
  | steel
  | paper
  | vital_zone
  | other
deriving DecidableEq

/-- DOPELog.convertToYards (models/DOPELog.ts):
unit === 'yards' ? distance : distance * 1.09361. -/
def convertToYards (distance : ℚ) (unit : DistanceUnit) : ℚ :=
  match unit with
  | .yards => distance
  | .meters => distance * 1.09361

/-- DOPELog.convertToMeters (models/DOPELog.ts):
unit === 'meters' ? distance : distance / 1.09361. -/
def convertToMeters (distance : ℚ) (unit : DistanceUnit) : ℚ :=
  match unit with
  | .meters => distance
  | .yards => distance / 1.09361

/-- DOPELog.calculateHitPercentage (models/DOPELog.ts): returns null when
hit_count is falsy (absent or 0), shot_count is falsy, or shot_count === 0;
otherwise (hit_count / shot_count) * 100.  Note the JS test
!this.hit_count makes hit_count = 0 return null here. -/
def calculateHitPercentage (hit_count shot_count : Option ℕ) : Option ℚ :=
  match hit_count, shot_count with
  | some h, some s =>
      if h = 0 ∨ s = 0 then none else some (((h : ℚ) / (s : ℚ)) * 100)
  | _, _ => none

/-- EnvironmentSnapshot.calculateDensityAltitude (models/EnvironmentSnapshot.ts):
pressureAltitude = altitude + 1000 * (29.92 - pressure);
standardTemp = 59 - 0.00356 * altitude;
densityAltitude = pressureAltitude + 120 * (temperature - standardTemp);
Math.round of the result.  JS Math.round(x) = ⌊x + 1/2⌋, which is Lean round. -/
def calculateDensityAltitude (temperature pressure altitude : ℚ) : ℤ :=
  let standardPressure : ℚ := 29.92
  let pressureAltitude := altitude + 1000 * (standardPressure - pressure)
  let standardTemp := 59 - 0.00356 * altitude
  let tempDifference := temperature - standardTemp
  let densityAltitude := pressureAltitude + 120 * tempDifference
  round densityAltitude

/-- The STORED GENERATED column dope_logs.distance_yards of
database/init/001-schema.sql:
CASE WHEN distance_unit = 'yards' THEN distance ELSE distance * 1.09361 END.
MySQL recomputes a stored generated column on every INSERT/UPDATE; it can
never hold a caller-chosen value. -/
def distanceYardsGen (distance : ℚ) (unit : DistanceUnit) : ℚ :=
  match unit with
  | .yards => distance
  | .meters => distance * 1.09361

/-- The STORED GENERATED column dope_logs.hit_percentage of
database/init/001-schema.sql:
CASE WHEN shot_count > 0 THEN (hit_count / shot_count) * 100 ELSE NULL END,
with SQL three-valued logic: a NULL shot_count falls to the ELSE branch and a
NULL hit_count makes the arithmetic expression NULL. -/
def hitPercentageGen (hit_count shot_count : Option ℕ) : Option ℚ :=
  match shot_count with
  | some s =>
      if 0 < s then hit_count.map (fun h => ((h : ℚ) / (s : ℚ)) * 100) else none
  | none => none

/-- JS falsiness of a nullable numeric attribute: undefined/null and 0 are
falsy, every other number is truthy. -/
def jsFalsy (x : Option ℚ) : Bool :=
  match x with
  | none => true
  | some v => v == 0

/-- The DOPELog beforeValidate hook (models/DOPELog.ts):
if (!log.distance_yards) log.distance_yards = convertToYards(distance, unit).
Returns the model-level distance_yards attribute after the hook. -/
def dopeBeforeValidate (distance_yards : Option ℚ) (distance : ℚ)
    (unit : DistanceUnit) : ℚ :=
  if jsFalsy distance_yards then convertToYards distance unit
  else distance_yards.getD 0

/-- The EnvironmentSnapshot beforeValidate hook (models/EnvironmentSnapshot.ts):
if (!snapshot.density_altitude) snapshot.density_altitude =
calculateDensityAltitude(temperature, pressure, altitude).
Returns the density_altitude attribute after the hook. -/
def envBeforeValidate (density_altitude : Option ℚ)
    (temperature pressure altitude : ℚ) : ℚ :=
  if jsFalsy density_altitude then
    (calculateDensityAltitude temperature pressure altitude : ℚ)
  else density_altitude.getD 0

/-- The hitCountValid model validator (models/DOPELog.ts): throws when
hit_count and shot_count are both non-null and hit_count > shot_count
(in JS, comparisons against undefined are false, so a missing value passes).
True means the write passes this validator. -/
def hitCountValid (hit_count shot_count : Option ℕ) : Bool :=
  match hit_count, shot_count with
  | some h, some s => decide (h ≤ s)
  | _, _ => true

/-! ## Entity rows

Rows of the relational store.  Only the columns the domain logic reads are
embedded; free-text columns (name, caliber, notes, ...) and timestamps play
no role in any invariant and are omitted. -/

/-- A rifle_profiles row (id, owning user). -/
structure RifleRow where
  id : ℕ
  user_id : ℕ
deriving DecidableEq

/-- An ammo_profiles row: always linked to one rifle. -/
structure AmmoRow where
  id : ℕ
  user_id : ℕ
  rifle_id : ℕ
deriving DecidableEq

/-- An environment_snapshots row.  density_altitude is a plain (non-generated)
DECIMAL column: whatever the model layer assigns is what is stored. -/
structure EnvRow where
  id : ℕ
  user_id : ℕ
  temperature : ℚ
  humidity : ℚ
  pressure : ℚ
  altitude : ℚ
  density_altitude : ℚ
  wind_speed : ℚ
  wind_direction : ℚ
deriving DecidableEq

/-- A dope_logs row.  distance_yards and hit_percentage are STORED GENERATED
columns in the schema: they are always the value of their generating
expression over the other columns of the same row. -/
structure DopeRow where
  id : ℕ
  user_id : ℕ
  rifle_id : ℕ
  ammo_id : ℕ
  environment_id : ℕ
  distance : ℚ
  distance_unit : DistanceUnit
  distance_yards : ℚ
  elevation_correction : ℚ
  windage_correction : ℚ
  correction_unit : CorrectionUnit
  target_type : TargetType
  group_size : Option ℚ
  hit_count : Option ℕ
  shot_count : Option ℕ
  hit_percentage : Option ℚ
deriving DecidableEq

/-- Domain error kinds raised by the controller operations embedded here
(utils/errors.ts; only the kinds those operations raise). -/
inductive ApiError
  | validationError
  | notFoundError
deriving DecidableEq

/-- The relational store. nextId models AUTO_INCREMENT id generation. -/
structure Store where
  rifles : List RifleRow
  ammos : List AmmoRow
  envs : List EnvRow
  logs : List DopeRow
  nextId : ℕ
deriving DecidableEq

/-- RifleProfile.findOne({ where: { id, user_id } }); ownership and existence
are checked together. -/
def findRifle (s : Store) (id uid : ℕ) : Option RifleRow :=
  s.rifles.find? (fun r => r.id == id && r.user_id == uid)

/-- AmmoProfile.findOne({ where: { id, user_id } }). -/
def findAmmo (s : Store) (id uid : ℕ) : Option AmmoRow :=
  s.ammos.find? (fun a => a.id == id && a.user_id == uid)

/-- EnvironmentSnapshot.findOne({ where: { id, user_id } }). -/
def findEnv (s : Store) (id uid : ℕ) : Option EnvRow :=
  s.envs.find? (fun e => e.id == id && e.user_id == uid)

/-- DOPELog.findOne({ where: { id, user_id } }). -/
def findDope (s : Store) (id uid : ℕ) : Option DopeRow :=
  s.logs.find? (fun l => l.id == id && l.user_id == uid)

/-! ## Field-range validators

The per-field validate blocks of the Sequelize models, run on the (merged)
instance before any write is accepted. -/

/-- dope_logs field validators (models/DOPELog.ts): distance in [0, 3000],
group_size ≥ 0 when present; hit_count/shot_count ≥ 0 hold by typing (ℕ). -/
def dopeFieldsValid (distance : ℚ) (group_size : Option ℚ) : Bool :=
  (0 ≤ distance && distance ≤ 3000) &&
    (match group_size with
     | none => true
     | some g => 0 ≤ g)

/-- environment_snapshots field validators (models/EnvironmentSnapshot.ts):
temperature in [-50,150], humidity in [0,100], pressure in [20,35],
altitude in [-1000,30000], wind_speed in [0,100], wind_direction in
[0,359.99].  latitude/longitude are omitted along with their columns. -/
def envFieldsValid (temperature humidity pressure altitude wind_speed
    wind_direction : ℚ) : Bool :=
  (-50 ≤ temperature && temperature ≤ 150) &&
  (0 ≤ humidity && humidity ≤ 100) &&
  (20 ≤ pressure && pressure ≤ 35) &&
  (-1000 ≤ altitude && altitude ≤ 30000) &&
  (0 ≤ wind_speed && wind_speed ≤ 100) &&
  (0 ≤ wind_direction && wind_direction ≤ 359.99)

/-! ## Write operations

The controller create/update paths, composed with the model hooks,
validators and the schema's generated columns.  An Except.error result
carries no store, reflecting that a failed write leaves the store
untouched. -/

/-- Merge a present update-body field over the current value (Sequelize
instance.update(partial) semantics for a non-null column). -/
def mergeField (new : Option α) (old : α) : α :=
  match new with
  | some v => v
  | none => old

/-- Merge a present update-body field over a nullable column.  (Resetting a
nullable column back to NULL is not modelled.) -/
def mergeOptField (new : Option α) (old : Option α) : Option α :=
  match new with
  | some v => some v
  | none => old

/-- Caller-supplied creation attributes of an EnvironmentSnapshot:
density_altitude may be supplied or omitted. -/
structure EnvBody where
  temperature : ℚ
  humidity : ℚ
  pressure : ℚ
  altitude : ℚ
  density_altitude : Option ℚ
  wind_speed : ℚ
  wind_direction : ℚ
deriving DecidableEq

/-- Partial update body for an EnvironmentSnapshot.  The controller passes
req.body verbatim to snapshot.update with no field whitelisting, so a body
may carry any column of the row — including user_id. -/
structure EnvUpdateBody where
  user_id : Option ℕ := none
  temperature : Option ℚ := none
  humidity : Option ℚ := none
  pressure : Option ℚ := none
  altitude : Option ℚ := none
  density_altitude : Option ℚ := none
  wind_speed : Option ℚ := none
  wind_direction : Option ℚ := none
deriving DecidableEq

/-- Merge an update body onto an existing environment row. -/
def mergeEnv (e : EnvRow) (b : EnvUpdateBody) : EnvRow :=
  { e with
    user_id := mergeField b.user_id e.user_id
    temperature := mergeField b.temperature e.temperature
    humidity := mergeField b.humidity e.humidity
    pressure := mergeField b.pressure e.pressure
    altitude := mergeField b.altitude e.altitude
    density_altitude := mergeField b.density_altitude e.density_altitude
    wind_speed := mergeField b.wind_speed e.wind_speed
    wind_direction := mergeField b.wind_direction e.wind_direction }

/-- The environment row built by a create: the hook fills density_altitude
when the supplied value is falsy; density_altitude is a plain column, so the
hook's value is exactly what is stored. -/
def mkEnvRow (s : Store) (uid : ℕ) (b : EnvBody) : EnvRow :=
  { id := s.nextId, user_id := uid, temperature := b.temperature,
    humidity := b.humidity, pressure := b.pressure, altitude := b.altitude,
    density_altitude := envBeforeValidate b.density_altitude b.temperature
      b.pressure b.altitude,
    wind_speed := b.wind_speed, wind_direction := b.wind_direction }

/-- The environment row stored by an update: the beforeValidate hook re-runs
on the merged instance, whose density_altitude is always set. -/
def envStored (m : EnvRow) : EnvRow :=
  { m with
    density_altitude :=
      envBeforeValidate (some m.density_altitude) m.temperature m.pressure
        m.altitude }

/-- The field validators applied to an environment instance. -/
def envRowValid (m : EnvRow) : Bool :=
  envFieldsValid m.temperature m.humidity m.pressure m.altitude
    m.wind_speed m.wind_direction

/-- EnvironmentSnapshotController.create: EnvironmentSnapshot.create runs the
beforeValidate hook, then the field validators, then inserts. -/
def createEnv (s : Store) (uid : ℕ) (b : EnvBody) :
    Except ApiError (Store × EnvRow) :=
  if envFieldsValid b.temperature b.humidity b.pressure b.altitude
      b.wind_speed b.wind_direction then
    .ok ({ s with envs := s.envs ++ [mkEnvRow s uid b], nextId := s.nextId + 1 }, mkEnvRow s uid b)
  else .error .validationError

/-- EnvironmentSnapshotController.update: find the owned snapshot (else
NotFoundError), merge the partial body, re-run the beforeValidate hook on
the merged instance and the validators, then store. -/
def updateEnv (s : Store) (uid envId : ℕ) (b : EnvUpdateBody) :
    Except ApiError (Store × EnvRow) :=
  match findEnv s envId uid with
  | none => .error .notFoundError
  | some env =>
    if envRowValid (mergeEnv env b) then
      .ok ({ s with envs := s.envs.map (fun e =>
              if e.id == envId && e.user_id == uid then
                envStored (mergeEnv env b)
              else e) },
           envStored (mergeEnv env b))
    else .error .validationError

/-- Caller-supplied creation attributes of an AmmoProfile (only the linkage
columns matter to the embedded logic). -/
structure AmmoBody where
  rifle_id : ℕ
deriving DecidableEq

/-- Partial update body for an AmmoProfile.  The controller passes req.body
verbatim to ammo.update with no field whitelisting, so a body may carry any
column of the row — including user_id, which reassigns the row's owner. -/
structure AmmoUpdateBody where
  user_id : Option ℕ := none
  rifle_id : Option ℕ := none
deriving DecidableEq

/-- AmmoProfileController.create: verify the rifle belongs to the user
(else ValidationError), then persist. -/
def createAmmo (s : Store) (uid : ℕ) (b : AmmoBody) :
    Except ApiError (Store × AmmoRow) :=
  match findRifle s b.rifle_id uid with
  | none => .error .validationError
  | some _ =>
    let row : AmmoRow := { id := s.nextId, user_id := uid,
                           rifle_id := b.rifle_id }
    .ok ({ s with ammos := s.ammos ++ [row], nextId := s.nextId + 1 }, row)

/-- The changed-foreign-key ownership check of the update controllers, for a
rifle_id body field: if the body carries a truthy rifle_id different from
the current one, the referenced rifle must belong to the user; otherwise the
check passes.  (JS truthiness: a body value of 0 skips the check.) -/
def fkRifleOk (s : Store) (uid current : ℕ) (body : Option ℕ) : Bool :=
  match body with
  | some r =>
      if r != 0 && r != current then (findRifle s r uid).isSome else true
  | none => true

/-- The changed-foreign-key ownership check for an ammo_id body field. -/
def fkAmmoOk (s : Store) (uid current : ℕ) (body : Option ℕ) : Bool :=
  match body with
  | some a =>
      if a != 0 && a != current then (findAmmo s a uid).isSome else true
  | none => true

/-- The changed-foreign-key ownership check for an environment_id body
field. -/
def fkEnvOk (s : Store) (uid current : ℕ) (body : Option ℕ) : Bool :=
  match body with
  | some e =>
      if e != 0 && e != current then (findEnv s e uid).isSome else true
  | none => true

/-- AmmoProfileController.update: find the owned ammo (else NotFoundError);
verify a changed rifle_id belongs to the user (else ValidationError); then
merge and store. -/
def updateAmmo (s : Store) (uid ammoId : ℕ) (b : AmmoUpdateBody) :
    Except ApiError (Store × AmmoRow) :=
  match findAmmo s ammoId uid with
  | none => .error .notFoundError
  | some ammo =>
    if fkRifleOk s uid ammo.rifle_id b.rifle_id then
      .ok ({ s with ammos := s.ammos.map (fun a =>
              if a.id == ammoId && a.user_id == uid then
                { ammo with
                  user_id := mergeField b.user_id ammo.user_id,
                  rifle_id := mergeField b.rifle_id ammo.rifle_id }
              else a) },
           { ammo with
             user_id := mergeField b.user_id ammo.user_id,
             rifle_id := mergeField b.rifle_id ammo.rifle_id })
    else .error .validationError

/-- Caller-supplied creation attributes of a DOPELog.  distance_yards and
hit_percentage are optional in the creation attributes (generated columns);
a caller may still put values there. -/
structure DopeBody where
  rifle_id : ℕ
  ammo_id : ℕ
  environment_id : ℕ
  distance : ℚ
  distance_unit : DistanceUnit
  distance_yards : Option ℚ := none
  elevation_correction : ℚ
  windage_correction : ℚ
  correction_unit : CorrectionUnit
  target_type : TargetType
  group_size : Option ℚ := none
  hit_count : Option ℕ := none
  shot_count : Option ℕ := none
deriving DecidableEq

/-- Partial update body for a DOPELog.  The controller passes req.body
verbatim to dopeLog.update with no field whitelisting, so a body may carry
any column of the row — including user_id, which reassigns the row's
owner. -/
structure DopeUpdateBody where
  user_id : Option ℕ := none
  rifle_id : Option ℕ := none
  ammo_id : Option ℕ := none
  environment_id : Option ℕ := none
  distance : Option ℚ := none
  distance_unit : Option DistanceUnit := none
  distance_yards : Option ℚ := none
  elevation_correction : Option ℚ := none
  windage_correction : Option ℚ := none
  correction_unit : Option CorrectionUnit := none
  target_type : Option TargetType := none
  group_size : Option ℚ := none
  hit_count : Option ℕ := none
  shot_count : Option ℕ := none
deriving DecidableEq

/-- Merge an update body onto an existing dope_logs row.  The merged
distance_yards / hit_percentage written here are immediately superseded by
the generated-column recomputation in updateDope, mirroring the STORED
GENERATED columns of the schema. -/
def mergeDope (l : DopeRow) (b : DopeUpdateBody) : DopeRow :=
  { l with
    user_id := mergeField b.user_id l.user_id
    rifle_id := mergeField b.rifle_id l.rifle_id
    ammo_id := mergeField b.ammo_id l.ammo_id
    environment_id := mergeField b.environment_id l.environment_id
    distance := mergeField b.distance l.distance
    distance_unit := mergeField b.distance_unit l.distance_unit
    distance_yards := mergeField b.distance_yards l.distance_yards
    elevation_correction :=
      mergeField b.elevation_correction l.elevation_correction
    windage_correction := mergeField b.windage_correction l.windage_correction
    correction_unit := mergeField b.correction_unit l.correction_unit
    target_type := mergeField b.target_type l.target_type
    group_size := mergeOptField b.group_size l.group_size
    hit_count := mergeOptField b.hit_count l.hit_count
    shot_count := mergeOptField b.shot_count l.shot_count }

/-- The dope_logs row built by a create: the stored distance_yards and
hit_percentage are the schema's generated columns, computed from the other
columns of the row; the caller's distance_yards (the model-level attribute
the beforeValidate hook assigns) never reaches storage. -/
def mkDopeRow (s : Store) (uid : ℕ) (b : DopeBody) : DopeRow :=
  { id := s.nextId, user_id := uid, rifle_id := b.rifle_id,
    ammo_id := b.ammo_id, environment_id := b.environment_id,
    distance := b.distance, distance_unit := b.distance_unit,
    distance_yards := distanceYardsGen b.distance b.distance_unit,
    elevation_correction := b.elevation_correction,
    windage_correction := b.windage_correction,
    correction_unit := b.correction_unit,
    target_type := b.target_type, group_size := b.group_size,
    hit_count := b.hit_count, shot_count := b.shot_count,
    hit_percentage := hitPercentageGen b.hit_count b.shot_count }

/-- Recomputation of the two stored generated columns from the (merged)
base columns, as MySQL does on every UPDATE of a dope_logs row. -/
def dopeStored (m : DopeRow) : DopeRow :=
  { m with
    distance_yards := distanceYardsGen m.distance m.distance_unit,
    hit_percentage := hitPercentageGen m.hit_count m.shot_count }

/-- The model validators applied to a dope_logs instance. -/
def dopeRowValid (m : DopeRow) : Bool :=
  dopeFieldsValid m.distance m.group_size &&
    hitCountValid m.hit_count m.shot_count

/-- DOPELogController.create: verify rifle, ammo and environment each belong
to the user (else ValidationError, in that order), then DOPELog.create runs
the hook and validators and inserts the row with its generated columns. -/
def createDope (s : Store) (uid : ℕ) (b : DopeBody) :
    Except ApiError (Store × DopeRow) :=
  match findRifle s b.rifle_id uid with
  | none => .error .validationError
  | some _ =>
    match findAmmo s b.ammo_id uid with
    | none => .error .validationError
    | some _ =>
      match findEnv s b.environment_id uid with
      | none => .error .validationError
      | some _ =>
        if dopeFieldsValid b.distance b.group_size &&
            hitCountValid b.hit_count b.shot_count then
          .ok ({ s with logs := s.logs ++ [mkDopeRow s uid b], nextId := s.nextId + 1 }, mkDopeRow s uid b)
        else .error .validationError

/-- DOPELogController.update: find the owned log (else NotFoundError); for
each foreign key that is truthy in the body and differs from the current
value, verify the referenced parent belongs to the user (else
ValidationError); then merge, validate and store, with the generated columns
recomputed from the merged row. -/
def updateDope (s : Store) (uid dopeId : ℕ) (b : DopeUpdateBody) :
    Except ApiError (Store × DopeRow) :=
  match findDope s dopeId uid with
  | none => .error .notFoundError
  | some log =>
    if fkRifleOk s uid log.rifle_id b.rifle_id &&
        fkAmmoOk s uid log.ammo_id b.ammo_id &&
        fkEnvOk s uid log.environment_id b.environment_id then
      if dopeRowValid (mergeDope log b) then
        .ok ({ s with logs := s.logs.map (fun l =>
                if l.id == dopeId && l.user_id == uid then
                  dopeStored (mergeDope log b)
                else l) },
             dopeStored (mergeDope log b))
      else .error .validationError
    else .error .validationError

/-! ## Read paths: the DOPE card and the per-rifle / per-ammo statistics -/

/-- The projection of a dope_logs row onto the attributes selected by
DOPELogController.getCard. -/
structure DopeCardEntry where
  distance : ℚ
  distance_unit : DistanceUnit
  distance_yards : ℚ
  elevation_correction : ℚ
  windage_correction : ℚ
  correction_unit : CorrectionUnit
  hit_percentage : Option ℚ
  group_size : Option ℚ
deriving DecidableEq

/-- Project a stored log to a DOPE-card entry. -/
def projectEntry (l : DopeRow) : DopeCardEntry :=
  { distance := l.distance, distance_unit := l.distance_unit,
    distance_yards := l.distance_yards,
    elevation_correction := l.elevation_correction,
    windage_correction := l.windage_correction,
    correction_unit := l.correction_unit,
    hit_percentage := l.hit_percentage, group_size := l.group_size }

/-- The ORDER BY distance_yards ASC comparison on dope_logs rows. -/
def dopeRowLe (a b : DopeRow) : Prop :=
  a.distance_yards ≤ b.distance_yards

instance : DecidableRel dopeRowLe := fun a b =>
  inferInstanceAs (Decidable (a.distance_yards ≤ b.distance_yards))

instance : IsTotal DopeRow dopeRowLe :=
  ⟨fun a b => le_total a.distance_yards b.distance_yards⟩

instance : IsTrans DopeRow dopeRowLe :=
  ⟨fun _ _ _ hab hbc => le_trans hab hbc⟩

/-- The logs selected by getCard: WHERE user_id = uid AND rifle_id = rid AND
ammo_id = aid. -/
def cardLogs (s : Store) (uid rid aid : ℕ) : List DopeRow :=
  s.logs.filter (fun l => l.user_id == uid && l.rifle_id == rid &&
    l.ammo_id == aid)

/-- DOPELogController.getCard: require both query parameters (else
ValidationError; query strings are modelled as Option ℕ, absent or empty
being none), verify ownership of both rifle and ammo with a single
NotFoundError otherwise, then return the user's logs for the pair ordered by
distance_yards ascending, projected to card entries.  ORDER BY is embedded
as an insertion sort on dopeRowLe (ties in an SQL ORDER BY are in an
unspecified order; the theorems only use sortedness and permutation). -/
def getCard (s : Store) (uid : ℕ) (rifle_id ammo_id : Option ℕ) :
    Except ApiError (List DopeCardEntry) :=
  match rifle_id, ammo_id with
  | some rid, some aid =>
    match findRifle s rid uid, findAmmo s aid uid with
    | some _, some _ =>
        .ok ((List.insertionSort dopeRowLe (cardLogs s uid rid aid)).map
          projectEntry)
    | _, _ => .error .notFoundError
  | _, _ => .error .validationError

/-- SQL MIN over a selected column: NULL on the empty selection. -/
def sqlMin (xs : List ℚ) : Option ℚ :=
  match xs with
  | [] => none
  | x :: t => some (t.foldl min x)

/-- SQL MAX over a selected column: NULL on the empty selection. -/
def sqlMax (xs : List ℚ) : Option ℚ :=
  match xs with
  | [] => none
  | x :: t => some (t.foldl max x)

/-- SQL AVG over the non-NULL values of a selected column: NULL when there
are none. -/
def sqlAvg (xs : List ℚ) : Option ℚ :=
  match xs with
  | [] => none
  | x :: t => some ((x :: t).sum / ((x :: t).length : ℚ))

/-- The statistics row of RifleProfileController.getStats. -/
structure RifleStats where
  ammo_count : ℕ
  dope_count : ℕ
  min_distance : Option ℚ
  max_distance : Option ℚ
  avg_accuracy : Option ℚ
deriving DecidableEq

/-- The statistics row of AmmoProfileController.getStats. -/
structure AmmoStats where
  dope_count : ℕ
  min_distance : Option ℚ
  max_distance : Option ℚ
  avg_accuracy : Option ℚ
  avg_group_size : Option ℚ
deriving DecidableEq

/-- RifleProfileController.getStats: after verifying ownership of the rifle,
count ammo and dope rows WHERE rifle_id = :rifleId (no hit_percentage
restriction and no user_id in the SQL), min/max distance_yards over the same
rows, and AVG(hit_percentage) over the rows WHERE rifle_id = :rifleId AND
hit_percentage IS NOT NULL. -/
def getRifleStats (s : Store) (uid rifleId : ℕ) :
    Except ApiError RifleStats :=
  match findRifle s rifleId uid with
  | none => .error .notFoundError
  | some _ =>
    let rows := s.logs.filter (fun l => l.rifle_id == rifleId)
    let accRows := s.logs.filter
      (fun l => l.rifle_id == rifleId && l.hit_percentage.isSome)
    .ok { ammo_count := (s.ammos.filter (fun a => a.rifle_id == rifleId)).length,
          dope_count := rows.length,
          min_distance := sqlMin (rows.map (fun l => l.distance_yards)),
          max_distance := sqlMax (rows.map (fun l => l.distance_yards)),
          avg_accuracy := sqlAvg (accRows.filterMap (fun l => l.hit_percentage)) }

/-- AmmoProfileController.getStats: after verifying ownership of the ammo,
every aggregate runs over the single selection
WHERE ammo_id = :ammoId AND hit_percentage IS NOT NULL
(no user_id in the SQL): the count, min/max distance_yards, AVG accuracy and
AVG group_size are all restricted to rows with a non-null hit_percentage. -/
def getAmmoStats (s : Store) (uid ammoId : ℕ) :
    Except ApiError AmmoStats :=
  match findAmmo s ammoId uid with
  | none => .error .notFoundError
  | some _ =>
    let rows := s.logs.filter
      (fun l => l.ammo_id == ammoId && l.hit_percentage.isSome)
    .ok { dope_count := rows.length,
          min_distance := sqlMin (rows.map (fun l => l.distance_yards)),
          max_distance := sqlMax (rows.map (fun l => l.distance_yards)),
          avg_accuracy := sqlAvg (rows.filterMap (fun l => l.hit_percentage)),
          avg_group_size := sqlAvg (rows.filterMap (fun l => l.group_size)) }

/-! ## Store invariants -/

/-- The same-owner referential invariant: every ammo references a rifle of
its own user, and every log references a rifle, an ammo and an environment
of its own user. -/
def sameOwnerInv (s : Store) : Prop :=
  (∀ a ∈ s.ammos, ∃ r ∈ s.rifles, r.id = a.rifle_id ∧ r.user_id = a.user_id) ∧
  (∀ l ∈ s.logs,
    (∃ r ∈ s.rifles, r.id = l.rifle_id ∧ r.user_id = l.user_id) ∧
    (∃ a ∈ s.ammos, a.id = l.ammo_id ∧ a.user_id = l.user_id) ∧
    (∃ e ∈ s.envs, e.id = l.environment_id ∧ e.user_id = l.user_id))

/-- The hit/shot invariant: no stored log has hit_count > shot_count when
both are present. -/
def hitShotInv (s : Store) : Prop :=
  ∀ l ∈ s.logs, ∀ h n, l.hit_count = some h → l.shot_count = some n → h ≤ n

/-- Foreign keys appearing in a DOPELog update body are positive.  The route
validation layer enforces isInt({ min: 1 }) on every optional foreign-key
body field (as in routes/ammo.routes.ts), so bodies reaching the controller
satisfy this. -/
def dopeBodyIdsPos (b : DopeUpdateBody) : Prop :=
  (∀ r ∈ b.rifle_id, r ≠ 0) ∧ (∀ a ∈ b.ammo_id, a ≠ 0) ∧
    (∀ e ∈ b.environment_id, e ≠ 0)

/-- A foreign key appearing in an AmmoProfile update body is positive
(routes/ammo.routes.ts: body rifle_id optional isInt({ min: 1 })). -/
def ammoBodyIdPos (b : AmmoUpdateBody) : Prop :=
  ∀ r ∈ b.rifle_id, r ≠ 0

/-! ## Concrete fixtures used by witnesses and counterexamples -/

/-- A rifle of user 1. -/
def rifle1 : RifleRow := { id := 10, user_id := 1 }

/-- A rifle of user 2. -/
def rifle2 : RifleRow := { id := 11, user_id := 2 }

/-- An ammo of user 1 on rifle1. -/
def ammo1 : AmmoRow := { id := 20, user_id := 1, rifle_id := 10 }

/-- An environment snapshot of user 1 (70°F, 29.92 inHg, sea level; its
density_altitude 1320 is the computed value for those conditions). -/
def env1 : EnvRow :=
  { id := 30, user_id := 1, temperature := 70, humidity := 50,
    pressure := 29.92, altitude := 0, density_altitude := 1320,
    wind_speed := 10, wind_direction := 90 }

/-- A log entered at 100 yards. -/
def log100yd : DopeRow :=
  { id := 40, user_id := 1, rifle_id := 10, ammo_id := 20,
    environment_id := 30, distance := 100, distance_unit := .yards,
    distance_yards := 100, elevation_correction := 1,
    windage_correction := 0.2, correction_unit := .MIL,
    target_type := .steel, group_size := none, hit_count := none,
    shot_count := none, hit_percentage := none }

/-- A log entered at 50 meters (normalized: 54.6805 yards). -/
def log50m : DopeRow :=
  { id := 41, user_id := 1, rifle_id := 10, ammo_id := 20,
    environment_id := 30, distance := 50, distance_unit := .meters,
    distance_yards := 54.6805, elevation_correction := 0.4,
    windage_correction := 0, correction_unit := .MIL,
    target_type := .paper, group_size := none, hit_count := none,
    shot_count := none, hit_percentage := none }

/-- A log entered at 300 yards. -/
def log300yd : DopeRow :=
  { id := 42, user_id := 1, rifle_id := 10, ammo_id := 20,
    environment_id := 30, distance := 300, distance_unit := .yards,
    distance_yards := 300, elevation_correction := 2.1,
    windage_correction := 0.5, correction_unit := .MIL,
    target_type := .steel, group_size := none, hit_count := none,
    shot_count := none, hit_percentage := none }

/-- Store with mixed-unit logs, insertion order 100yd, 50m, 300yd. -/
def cardStore : Store :=
  { rifles := [rifle1], ammos := [ammo1], envs := [env1],
    logs := [log100yd, log50m, log300yd], nextId := 50 }

/-- A log on ammo1 with no hit data (hit_percentage NULL), 100 yards. -/
def logNoHp : DopeRow :=
  { id := 43, user_id := 1, rifle_id := 10, ammo_id := 20,
    environment_id := 30, distance := 100, distance_unit := .yards,
    distance_yards := 100, elevation_correction := 1,
    windage_correction := 0, correction_unit := .MIL,
    target_type := .steel, group_size := none, hit_count := none,
    shot_count := none, hit_percentage := none }

/-- A log on ammo1 with 1/2 hits (hit_percentage 50), 200 yards. -/
def logHp50 : DopeRow :=
  { id := 44, user_id := 1, rifle_id := 10, ammo_id := 20,
    environment_id := 30, distance := 200, distance_unit := .yards,
    distance_yards := 200, elevation_correction := 1.5,
    windage_correction := 0, correction_unit := .MIL,
    target_type := .steel, group_size := some 1, hit_count := some 1,
    shot_count := some 2, hit_percentage := some 50 }

/-- Store for the statistics counterexample: one log with and one log
without hit data, both linked to ammo1/rifle1 of user 1. -/
def statsStore : Store :=
  { rifles := [rifle1], ammos := [ammo1], envs := [env1],
    logs := [logNoHp, logHp50], nextId := 60 }

/-- Store holding only user 2's rifle, for cross-user write attempts. -/
def crossStore : Store :=
  { rifles := [rifle2], ammos := [], envs := [], logs := [], nextId := 5 }

/-- A creation body for a 50-meter log on rifle1/ammo1/env1 that also tries
to set distance_yards to 7. -/
def bodyW : DopeBody :=
  { rifle_id := 10, ammo_id := 20, environment_id := 30, distance := 50,
    distance_unit := .meters, distance_yards := some 7,
    elevation_correction := 1, windage_correction := 0,
    correction_unit := .MIL, target_type := .steel }

/-- Store with user 1's rifle 10 and ammo 20 linked to it, satisfying the
same-owner invariant. -/
def ownStore : Store :=
  { rifles := [rifle1], ammos := [ammo1], envs := [], logs := [],
    nextId := 50 }

/-- The ammo row after an update body reassigns user_id to 2: it still
references rifle 10, which user 1 owns. -/
def crossAmmoRow : AmmoRow := { id := 20, user_id := 2, rifle_id := 10 }

/-- The store after that update. -/
def ownStore2 : Store :=
  { rifles := [rifle1], ammos := [crossAmmoRow], envs := [], logs := [],
    nextId := 50 }

/-- A creation body with hit_count 5 out of shot_count 3. -/
def badBody : DopeBody :=
  { rifle_id := 10, ammo_id := 20, environment_id := 30, distance := 100,
    distance_unit := .yards, elevation_correction := 1,
    windage_correction := 0, correction_unit := .MIL, target_type := .steel,
    hit_count := some 5, shot_count := some 3 }

/-- Empty store whose next id is 30. -/
def envStore0 : Store :=
  { rifles := [], ammos := [], envs := [], logs := [], nextId := 30 }

/-- Environment creation body: 70°F, 29.92 inHg, sea level, density_altitude
not supplied. -/
def envBody0 : EnvBody :=
  { temperature := 70, humidity := 50, pressure := 29.92, altitude := 0,
    density_altitude := none, wind_speed := 10, wind_direction := 90 }

/-- The same environment creation body with density_altitude supplied as
exactly 0. -/
def envBodyZero : EnvBody :=
  { temperature := 70, humidity := 50, pressure := 29.92, altitude := 0,
    density_altitude := some 0, wind_speed := 10, wind_direction := 90 }

/-- The row stored by creating envBody0 on envStore0 for user 1: the hook
computed density_altitude = 1320. -/
def envRow1 : EnvRow :=
  { id := 30, user_id := 1, temperature := 70, humidity := 50,
    pressure := 29.92, altitude := 0, density_altitude := 1320,
    wind_speed := 10, wind_direction := 90 }

/-- The store after that create. -/
def envStore1 : Store :=
  { rifles := [], ammos := [], envs := [envRow1], logs := [], nextId := 31 }

/-- The row after updating only the temperature to 100: density_altitude is
left at 1320. -/
def envRow2 : EnvRow := { envRow1 with temperature := 100 }

/-- The store after that update. -/
def envStore2 : Store := { envStore1 with envs := [envRow2] }

/-! ## Helper lemmas about the lookup functions -/

/-- Unpacking a successful owned-rifle lookup. -/
theorem findRifle_some {s : Store} {id uid : ℕ} {r : RifleRow}
    (h : findRifle s id uid = some r) :
    r ∈ s.rifles ∧ r.id = id ∧ r.user_id = uid := by
  have hp := List.find?_some h
  simp only [Bool.and_eq_true, beq_iff_eq] at hp
  exact ⟨List.mem_of_find?_eq_some h, hp.1, hp.2⟩

/-- Unpacking a successful owned-ammo lookup. -/
theorem findAmmo_some {s : Store} {id uid : ℕ} {a : AmmoRow}
    (h : findAmmo s id uid = some a) :
    a ∈ s.ammos ∧ a.id = id ∧ a.user_id = uid := by
  have hp := List.find?_some h
  simp only [Bool.and_eq_true, beq_iff_eq] at hp
  exact ⟨List.mem_of_find?_eq_some h, hp.1, hp.2⟩

/-- Unpacking a successful owned-environment lookup. -/
theorem findEnv_some {s : Store} {id uid : ℕ} {e : EnvRow}
    (h : findEnv s id uid = some e) :
    e ∈ s.envs ∧ e.id = id ∧ e.user_id = uid := by
  have hp := List.find?_some h
  simp only [Bool.and_eq_true, beq_iff_eq] at hp
  exact ⟨List.mem_of_find?_eq_some h, hp.1, hp.2⟩

/-- Unpacking a successful owned-log lookup. -/
theorem findDope_some {s : Store} {id uid : ℕ} {l : DopeRow}
    (h : findDope s id uid = some l) :
    l ∈ s.logs ∧ l.id = id ∧ l.user_id = uid := by
  have hp := List.find?_some h
  simp only [Bool.and_eq_true, beq_iff_eq] at hp
  exact ⟨List.mem_of_find?_eq_some h, hp.1, hp.2⟩

/-- A rifle of the right id and owner in the store makes findRifle succeed. -/
theorem findRifle_isSome {s : Store} {id uid : ℕ} {r : RifleRow}
    (hm : r ∈ s.rifles) (hid : r.id = id) (hu : r.user_id = uid) :
    (findRifle s id uid).isSome := by
  rw [findRifle, List.find?_isSome]
  exact ⟨r, hm, by simp [hid, hu]⟩

/-- An ammo of the right id and owner in the store makes findAmmo succeed. -/
theorem findAmmo_isSome {s : Store} {id uid : ℕ} {a : AmmoRow}
    (hm : a ∈ s.ammos) (hid : a.id = id) (hu : a.user_id = uid) :
    (findAmmo s id uid).isSome := by
  rw [findAmmo, List.find?_isSome]
  exact ⟨a, hm, by simp [hid, hu]⟩

/-- An environment of the right id and owner in the store makes findEnv
succeed. -/
theorem findEnv_isSome {s : Store} {id uid : ℕ} {e : EnvRow}
    (hm : e ∈ s.envs) (hid : e.id = id) (hu : e.user_id = uid) :
    (findEnv s id uid).isSome := by
  rw [findEnv, List.find?_isSome]
  exact ⟨e, hm, by simp [hid, hu]⟩

/-! ## Inversion lemmas for the write operations -/

/-- What a successful DOPELog create did. -/
theorem createDope_ok {s : Store} {uid : ℕ} {b : DopeBody} {s2 : Store}
    {row : DopeRow} (h : createDope s uid b = Except.ok (s2, row)) :
    row = mkDopeRow s uid b ∧
    s2 = { s with logs := s.logs ++ [mkDopeRow s uid b], nextId := s.nextId + 1 } ∧
    (findRifle s b.rifle_id uid).isSome ∧
    (findAmmo s b.ammo_id uid).isSome ∧
    (findEnv s b.environment_id uid).isSome ∧
    dopeFieldsValid b.distance b.group_size = true ∧
    hitCountValid b.hit_count b.shot_count = true := by
  unfold createDope at h
  split at h
  · exact Except.noConfusion h
  next hr =>
    split at h
    · exact Except.noConfusion h
    next ha =>
      split at h
      · exact Except.noConfusion h
      next he =>
        split at h
        next hv =>
          simp only [Except.ok.injEq, Prod.mk.injEq] at h
          obtain ⟨rfl, rfl⟩ := h
          rw [Bool.and_eq_true] at hv
          exact ⟨rfl, rfl, by simp [hr], by simp [ha], by simp [he],
            hv.1, hv.2⟩
        · exact Except.noConfusion h

/-- A DOPELog create with an unresolved parent reference fails with
ValidationError. -/
theorem createDope_err {s : Store} {uid : ℕ} {b : DopeBody}
    (h : findRifle s b.rifle_id uid = none ∨
      findAmmo s b.ammo_id uid = none ∨ findEnv s b.environment_id uid = none) :
    createDope s uid b = Except.error ApiError.validationError := by
  cases hfr : findRifle s b.rifle_id uid with
  | none => simp [createDope, hfr]
  | some r =>
    cases hfa : findAmmo s b.ammo_id uid with
    | none => simp [createDope, hfr, hfa]
    | some a =>
      cases hfe : findEnv s b.environment_id uid with
      | none => simp [createDope, hfr, hfa, hfe]
      | some e => simp_all

/-- What a successful DOPELog update did. -/
theorem updateDope_ok {s : Store} {uid dopeId : ℕ} {b : DopeUpdateBody}
    {s2 : Store} {row : DopeRow}
    (h : updateDope s uid dopeId b = Except.ok (s2, row)) :
    ∃ log, findDope s dopeId uid = some log ∧
      row = dopeStored (mergeDope log b) ∧
      s2.rifles = s.rifles ∧ s2.ammos = s.ammos ∧ s2.envs = s.envs ∧
      s2.logs = s.logs.map
        (fun l => if l.id == dopeId && l.user_id == uid then row else l) ∧
      fkRifleOk s uid log.rifle_id b.rifle_id = true ∧
      fkAmmoOk s uid log.ammo_id b.ammo_id = true ∧
      fkEnvOk s uid log.environment_id b.environment_id = true ∧
      dopeRowValid (mergeDope log b) = true := by
  unfold updateDope at h
  split at h
  · exact Except.noConfusion h
  next log hlog =>
    split at h
    next hfk =>
      split at h
      next hv =>
        simp only [Except.ok.injEq, Prod.mk.injEq] at h
        obtain ⟨rfl, rfl⟩ := h
        simp only [Bool.and_eq_true] at hfk
        exact ⟨log, hlog, rfl, rfl, rfl, rfl, rfl, hfk.1.1, hfk.1.2,
          hfk.2, hv⟩
      · exact Except.noConfusion h
    · exact Except.noConfusion h

/-- A DOPELog update whose changed-foreign-key checks fail raises
ValidationError. -/
theorem updateDope_fkFail {s : Store} {uid dopeId : ℕ} {b : DopeUpdateBody}
    {log : DopeRow} (hfind : findDope s dopeId uid = some log)
    (hfk : (fkRifleOk s uid log.rifle_id b.rifle_id &&
      fkAmmoOk s uid log.ammo_id b.ammo_id &&
      fkEnvOk s uid log.environment_id b.environment_id) = false) :
    updateDope s uid dopeId b = Except.error ApiError.validationError := by
  simp [updateDope, hfind, hfk]

/-- What a successful AmmoProfile create did. -/
theorem createAmmo_ok {s : Store} {uid : ℕ} {b : AmmoBody} {s2 : Store}
    {row : AmmoRow} (h : createAmmo s uid b = Except.ok (s2, row)) :
    (findRifle s b.rifle_id uid).isSome ∧
    row = { id := s.nextId, user_id := uid, rifle_id := b.rifle_id } ∧
    s2 = { s with ammos := s.ammos ++ [row], nextId := s.nextId + 1 } := by
  unfold createAmmo at h
  split at h
  · exact Except.noConfusion h
  next hr =>
    simp only [Except.ok.injEq, Prod.mk.injEq] at h
    obtain ⟨rfl, rfl⟩ := h
    exact ⟨by simp [hr], rfl, rfl⟩

/-- An AmmoProfile create with an unresolved rifle reference fails with
ValidationError. -/
theorem createAmmo_err {s : Store} {uid : ℕ} {b : AmmoBody}
    (h : findRifle s b.rifle_id uid = none) :
    createAmmo s uid b = Except.error ApiError.validationError := by
  simp [createAmmo, h]

/-- What a successful AmmoProfile update did. -/
theorem updateAmmo_ok {s : Store} {uid ammoId : ℕ} {b : AmmoUpdateBody}
    {s2 : Store} {row : AmmoRow}
    (h : updateAmmo s uid ammoId b = Except.ok (s2, row)) :
    ∃ ammo, findAmmo s ammoId uid = some ammo ∧
      row = { ammo with
              user_id := mergeField b.user_id ammo.user_id,
              rifle_id := mergeField b.rifle_id ammo.rifle_id } ∧
      s2.rifles = s.rifles ∧ s2.envs = s.envs ∧ s2.logs = s.logs ∧
      s2.ammos = s.ammos.map
        (fun a => if a.id == ammoId && a.user_id == uid then row else a) ∧
      fkRifleOk s uid ammo.rifle_id b.rifle_id = true := by
  unfold updateAmmo at h
  split at h
  · exact Except.noConfusion h
  next ammo hfind =>
    split at h
    next hfk =>
      simp only [Except.ok.injEq, Prod.mk.injEq] at h
      obtain ⟨rfl, rfl⟩ := h
      exact ⟨ammo, hfind, rfl, rfl, rfl, rfl, rfl, hfk⟩
    · exact Except.noConfusion h

/-- An AmmoProfile update whose changed-rifle check fails raises
ValidationError. -/
theorem updateAmmo_fkFail {s : Store} {uid ammoId : ℕ} {b : AmmoUpdateBody}
    {ammo : AmmoRow} (hfind : findAmmo s ammoId uid = some ammo)
    (hfk : fkRifleOk s uid ammo.rifle_id b.rifle_id = false) :
    updateAmmo s uid ammoId b = Except.error ApiError.validationError := by
  simp [updateAmmo, hfind, hfk]

/-- What a successful EnvironmentSnapshot create did. -/
theorem createEnv_ok {s : Store} {uid : ℕ} {b : EnvBody} {s2 : Store}
    {row : EnvRow} (h : createEnv s uid b = Except.ok (s2, row)) :
    row = mkEnvRow s uid b ∧
    s2 = { s with envs := s.envs ++ [mkEnvRow s uid b], nextId := s.nextId + 1 } := by
  unfold createEnv at h
  split at h
  · simp only [Except.ok.injEq, Prod.mk.injEq] at h
    obtain ⟨rfl, rfl⟩ := h
    exact ⟨rfl, rfl⟩
  · exact Except.noConfusion h

/-- What a successful EnvironmentSnapshot update did. -/
theorem updateEnv_ok {s : Store} {uid envId : ℕ} {b : EnvUpdateBody}
    {s2 : Store} {row : EnvRow}
    (h : updateEnv s uid envId b = Except.ok (s2, row)) :
    ∃ env, findEnv s envId uid = some env ∧
      row = envStored (mergeEnv env b) ∧
      envRowValid (mergeEnv env b) = true := by
  unfold updateEnv at h
  split at h
  · exact Except.noConfusion h
  next env hfind =>
    split at h
    next hv =>
      simp only [Except.ok.injEq, Prod.mk.injEq] at h
      obtain ⟨rfl, rfl⟩ := h
      exact ⟨env, hfind, rfl, hv⟩
    · exact Except.noConfusion h

/-- The unused model helper calculateHitPercentage diverges from the stored
generated column at hit_count = 0 (its JS falsiness test treats 0 hits as
absent); the stored hit_percentage column follows hitPercentageGen, which is
what every write persists. -/
theorem calculateHitPercentage_zero_hits_diverges :
    calculateHitPercentage (some 0) (some 5) = none ∧
    hitPercentageGen (some 0) (some 5) = some 0 := by
  constructor
  · norm_num [calculateHitPercentage]
  · norm_num [hitPercentageGen]

/-! ## C4: the density-altitude formula -/

/-- C4: for every (temperature, pressure, altitude) triple,
calculateDensityAltitude returns
round((altitude + 1000×(29.92 − pressure)) + 120×(temperature − (59 −
0.00356×altitude))), rounded to the nearest integer; in particular for
temperature = 70, pressure = 29.92, altitude = 0 it returns 1320. -/
theorem calculateDensityAltitude_formula :
    (∀ temperature pressure altitude : ℚ,
      calculateDensityAltitude temperature pressure altitude =
        round ((altitude + 1000 * (29.92 - pressure)) +
          120 * (temperature - (59 - 0.00356 * altitude)))) ∧
    calculateDensityAltitude 70 29.92 0 = 1320 := by
  constructor
  · intro t p a
    rfl
  · norm_num [calculateDensityAltitude, round_eq]

/-! ## C9: the unit-conversion functions -/

/-- C9 counterexample: the claim asserts the meters→yards→meters round trip
is approximately but NOT exactly equal to the input for every distance; at
distance 100 the round trip is exactly 100 (in the exact arithmetic of this
embedding, 100 × 1.09361 / 1.09361 = 100), refuting the "not exactly equal"
part. -/
theorem convert_roundTrip_exact_at_100 :
    convertToMeters (convertToYards 100 .meters) .yards = 100 := by
  norm_num [convertToYards, convertToMeters]

/-- C9 (amended): convertToYards is the identity on yards and multiplies by
1.09361 on meters; convertToMeters is the identity on meters and divides by
the same constant 1.09361; in exact arithmetic the meters→yards→meters round
trip returns the input exactly (any round-trip deviation is a
floating-point artifact, outside this arithmetic model, and does not occur
for every input). -/
theorem convert_functions_characterization :
    ∀ d : ℚ, convertToYards d .yards = d ∧
      convertToYards d .meters = d * 1.09361 ∧
      convertToMeters d .meters = d ∧
      convertToMeters d .yards = d / 1.09361 ∧
      convertToMeters (convertToYards d .meters) .yards = d := by
  intro d
  refine ⟨rfl, rfl, rfl, rfl, ?_⟩
  show d * 1.09361 / 1.09361 = d
  rw [mul_div_assoc, div_self (by norm_num), mul_one]

/-! ## C1: distance_yards is recomputed on every write -/

/-- The SQL generated-column expression for distance_yards agrees with the
model's convertToYards. -/
theorem distanceYardsGen_eq_convertToYards (d : ℚ) (u : DistanceUnit) :
    distanceYardsGen d u = convertToYards d u := by
  cases u <;> rfl

/-- C1: immediately after every successful DOPELog create or update, the
stored distance_yards equals convertToYards(distance, distance_unit) of the
same row; and the result of a write does not depend on any caller-supplied
distance_yards value, which therefore cannot be set independently. -/
theorem stored_distance_yards_eq_convertToYards :
    (∀ (s : Store) (uid : ℕ) (b : DopeBody) (s2 : Store) (row : DopeRow),
      createDope s uid b = Except.ok (s2, row) →
        row.distance_yards = convertToYards row.distance row.distance_unit ∧
        row.distance = b.distance ∧ row.distance_unit = b.distance_unit ∧
        row ∈ s2.logs) ∧
    (∀ (s : Store) (uid : ℕ) (b : DopeBody) (dy : Option ℚ),
      createDope s uid { b with distance_yards := dy } = createDope s uid b) ∧
    (∀ (s : Store) (uid dopeId : ℕ) (b : DopeUpdateBody) (s2 : Store)
      (row : DopeRow),
      updateDope s uid dopeId b = Except.ok (s2, row) →
        row.distance_yards = convertToYards row.distance row.distance_unit ∧
        row ∈ s2.logs) ∧
    (∀ (s : Store) (uid dopeId : ℕ) (b : DopeUpdateBody) (dy : Option ℚ),
      updateDope s uid dopeId { b with distance_yards := dy } =
        updateDope s uid dopeId b) := by
  refine ⟨?_, ?_, ?_, ?_⟩
  · intro s uid b s2 row h
    obtain ⟨hrow, hs2, -⟩ := createDope_ok h
    subst hrow
    subst hs2
    refine ⟨?_, rfl, rfl, ?_⟩
    · exact distanceYardsGen_eq_convertToYards _ _
    · simp [mkDopeRow]
  · intro s uid b dy
    rfl
  · intro s uid dopeId b s2 row h
    obtain ⟨log, hlog, hrow, -, -, -, hlogs, -, -, -, -⟩ := updateDope_ok h
    subst hrow
    refine ⟨distanceYardsGen_eq_convertToYards _ _, ?_⟩
    rw [hlogs]
    obtain ⟨hm, hid, huid⟩ := findDope_some hlog
    refine List.mem_map.mpr ⟨log, hm, ?_⟩
    simp [hid, huid]
  · intro s uid dopeId b dy
    rfl

/-- C1 witness: applying the create clause at a concrete write.  User 1
creates a log at 50 meters on cardStore, supplying distance_yards = 7; the
stored row still has distance_yards = convertToYards(50, meters). -/
theorem stored_distance_yards_eq_convertToYards_witness :
    createDope cardStore 1 bodyW =
      Except.ok ({ cardStore with
          logs := cardStore.logs ++ [mkDopeRow cardStore 1 bodyW],
          nextId := cardStore.nextId + 1 }, mkDopeRow cardStore 1 bodyW) ∧
    (mkDopeRow cardStore 1 bodyW).distance_yards =
      convertToYards 50 DistanceUnit.meters := by
  have hok : createDope cardStore 1 bodyW =
      Except.ok ({ cardStore with
          logs := cardStore.logs ++ [mkDopeRow cardStore 1 bodyW],
          nextId := cardStore.nextId + 1 }, mkDopeRow cardStore 1 bodyW) := by
    norm_num [createDope, findRifle, findAmmo, findEnv, cardStore, rifle1,
      ammo1, env1, bodyW, dopeFieldsValid, hitCountValid]
  exact ⟨hok,
    (stored_distance_yards_eq_convertToYards.1 cardStore 1 bodyW _ _ hok).1⟩

/-! ## C3: the hit-percentage formula -/

/-- C3: whenever shot_count is present and positive, the derived (stored)
hit_percentage of a row equals (hit_count / shot_count) × 100, unrounded,
including for hit_count = 0; when shot_count is absent or 0, hit_percentage
is null; and every successful create/update stores exactly this derived
value on the row. -/
theorem hit_percentage_formula_on_writes :
    (∀ h n : ℕ, 0 < n →
      hitPercentageGen (some h) (some n) = some (((h : ℚ) / (n : ℚ)) * 100)) ∧
    (∀ hc : Option ℕ,
      hitPercentageGen hc none = none ∧ hitPercentageGen hc (some 0) = none) ∧
    (∀ (s : Store) (uid : ℕ) (b : DopeBody) (s2 : Store) (row : DopeRow),
      createDope s uid b = Except.ok (s2, row) →
        row.hit_count = b.hit_count ∧ row.shot_count = b.shot_count ∧
        row.hit_percentage = hitPercentageGen row.hit_count row.shot_count) ∧
    (∀ (s : Store) (uid dopeId : ℕ) (b : DopeUpdateBody) (s2 : Store)
      (row : DopeRow),
      updateDope s uid dopeId b = Except.ok (s2, row) →
        row.hit_percentage = hitPercentageGen row.hit_count row.shot_count) := by
  refine ⟨?_, ?_, ?_, ?_⟩
  · intro h n hn
    simp [hitPercentageGen, hn]
  · intro hc
    exact ⟨rfl, rfl⟩
  · intro s uid b s2 row h
    obtain ⟨hrow, -, -⟩ := createDope_ok h
    subst hrow
    exact ⟨rfl, rfl, rfl⟩
  · intro s uid dopeId b s2 row h
    obtain ⟨log, -, hrow, -⟩ := updateDope_ok h
    subst hrow
    rfl

/-- C3 witness: 1 hit of 2 shots gives hit_percentage (1/2)×100 = 50. -/
theorem hit_percentage_formula_on_writes_witness :
    0 < 2 ∧
    hitPercentageGen (some 1) (some 2) =
      some ((((1 : ℕ) : ℚ) / ((2 : ℕ) : ℚ)) * 100) ∧
    hitPercentageGen (some 1) (some 2) = some 50 := by
  have h := hit_percentage_formula_on_writes.1 1 2 (by norm_num)
  exact ⟨by norm_num, h, by rw [h]; norm_num⟩

/-! ## C10: the write-time hooks treat 0 as absent -/

/-- C10: the beforeValidate hooks recompute density_altitude (resp.
distance_yards) exactly when the currently assigned value is JS-falsy
(absent, null or 0): a caller-supplied 0 yields the computed value, and any
non-zero caller-supplied density_altitude is stored verbatim. -/
theorem hooks_recompute_iff_falsy :
    (∀ (v : Option ℚ) (t p a : ℚ),
      (jsFalsy v = true → envBeforeValidate v t p a =
        ((calculateDensityAltitude t p a : ℤ) : ℚ)) ∧
      (∀ x : ℚ, v = some x → x ≠ 0 → envBeforeValidate v t p a = x)) ∧
    (∀ (v : Option ℚ) (d : ℚ) (u : DistanceUnit),
      (jsFalsy v = true → dopeBeforeValidate v d u = convertToYards d u) ∧
      (∀ x : ℚ, v = some x → x ≠ 0 → dopeBeforeValidate v d u = x)) ∧
    (jsFalsy none = true ∧ jsFalsy (some 0) = true ∧
      ∀ x : ℚ, x ≠ 0 → jsFalsy (some x) = false) ∧
    (∀ (s : Store) (uid : ℕ) (b : EnvBody) (s2 : Store) (row : EnvRow),
      b.density_altitude = some 0 → createEnv s uid b = Except.ok (s2, row) →
      row.density_altitude =
        ((calculateDensityAltitude b.temperature b.pressure b.altitude : ℤ) :
          ℚ)) ∧
    (∀ (s : Store) (uid : ℕ) (b : EnvBody) (s2 : Store) (row : EnvRow)
      (x : ℚ), b.density_altitude = some x → x ≠ 0 →
      createEnv s uid b = Except.ok (s2, row) → row.density_altitude = x) := by
  refine ⟨?_, ?_, ⟨rfl, by simp [jsFalsy], ?_⟩, ?_, ?_⟩
  · intro v t p a
    constructor
    · intro hf
      simp [envBeforeValidate, hf]
    · intro x hx hne
      subst hx
      simp [envBeforeValidate, jsFalsy, hne]
  · intro v d u
    constructor
    · intro hf
      simp [dopeBeforeValidate, hf]
    · intro x hx hne
      subst hx
      simp [dopeBeforeValidate, jsFalsy, hne]
  · intro x hx
    simp [jsFalsy, hx]
  · intro s uid b s2 row hda h
    obtain ⟨hrow, -⟩ := createEnv_ok h
    subst hrow
    show envBeforeValidate b.density_altitude b.temperature b.pressure
      b.altitude = _
    rw [hda]
    simp [envBeforeValidate, jsFalsy]
  · intro s uid b s2 row x hda hne h
    obtain ⟨hrow, -⟩ := createEnv_ok h
    subst hrow
    show envBeforeValidate b.density_altitude b.temperature b.pressure
      b.altitude = _
    rw [hda]
    simp [envBeforeValidate, jsFalsy, hne]

/-- C10 witness: creating an environment with density_altitude supplied as 0
stores the computed 1320 instead of 0. -/
theorem hooks_recompute_iff_falsy_witness :
    envBodyZero.density_altitude = some 0 ∧
    createEnv envStore0 1 envBodyZero =
      Except.ok ({ envStore0 with
          envs := envStore0.envs ++ [mkEnvRow envStore0 1 envBodyZero],
          nextId := envStore0.nextId + 1 }, mkEnvRow envStore0 1 envBodyZero) ∧
    (mkEnvRow envStore0 1 envBodyZero).density_altitude =
      ((calculateDensityAltitude envBodyZero.temperature envBodyZero.pressure
        envBodyZero.altitude : ℤ) : ℚ) ∧
    (mkEnvRow envStore0 1 envBodyZero).density_altitude = 1320 := by
  have hok : createEnv envStore0 1 envBodyZero =
      Except.ok ({ envStore0 with
          envs := envStore0.envs ++ [mkEnvRow envStore0 1 envBodyZero],
          nextId := envStore0.nextId + 1 },
        mkEnvRow envStore0 1 envBodyZero) := by
    norm_num [createEnv, envFieldsValid, envBodyZero, envStore0]
  have hcomp := hooks_recompute_iff_falsy.2.2.2.1 envStore0 1 envBodyZero _ _
    rfl hok
  refine ⟨rfl, hok, hcomp, ?_⟩
  rw [hcomp]
  norm_num [envBodyZero, calculateDensityAltitude, round_eq]

/-! ## C8: hit_count may not exceed shot_count -/

/-- A passing hitCountValid check bounds present hit counts by present shot
counts. -/
theorem hitCountValid_true_le {hc sc : Option ℕ}
    (hv : hitCountValid hc sc = true) :
    ∀ h n, hc = some h → sc = some n → h ≤ n := by
  intro h n hh hn
  subst hh
  subst hn
  simpa [hitCountValid] using hv

/-- C8: a DOPELog create or update in which both merged hit_count and
shot_count are present with hit_count > shot_count is rejected with a
ValidationError; consequently the invariant that no persisted log has
hit_count > shot_count is preserved by every create and update. -/
theorem hit_count_le_shot_count_enforced :
    (∀ h n : ℕ, hitCountValid (some h) (some n) = false ↔ n < h) ∧
    (∀ (s : Store) (uid : ℕ) (b : DopeBody) (h n : ℕ),
      b.hit_count = some h → b.shot_count = some n → n < h →
      createDope s uid b = Except.error ApiError.validationError) ∧
    (∀ (s : Store) (uid dopeId : ℕ) (b : DopeUpdateBody) (log : DopeRow)
      (h n : ℕ), findDope s dopeId uid = some log →
      (mergeDope log b).hit_count = some h →
      (mergeDope log b).shot_count = some n → n < h →
      updateDope s uid dopeId b = Except.error ApiError.validationError) ∧
    (∀ s : Store, hitShotInv s → ∀ (uid : ℕ) (b : DopeBody) (s2 : Store)
      (row : DopeRow),
      createDope s uid b = Except.ok (s2, row) → hitShotInv s2) ∧
    (∀ s : Store, hitShotInv s → ∀ (uid dopeId : ℕ) (b : DopeUpdateBody)
      (s2 : Store) (row : DopeRow),
      updateDope s uid dopeId b = Except.ok (s2, row) → hitShotInv s2) := by
  refine ⟨?_, ?_, ?_, ?_, ?_⟩
  · intro h n
    simp [hitCountValid, decide_eq_false_iff_not, Nat.not_le]
  · intro s uid b h n hh hn hlt
    have hv : hitCountValid b.hit_count b.shot_count = false := by
      rw [hh, hn]
      simp only [hitCountValid, decide_eq_false_iff_not]
      exact Nat.not_le.mpr hlt
    cases hfr : findRifle s b.rifle_id uid with
    | none => simp [createDope, hfr]
    | some r =>
      cases hfa : findAmmo s b.ammo_id uid with
      | none => simp [createDope, hfr, hfa]
      | some a =>
        cases hfe : findEnv s b.environment_id uid with
        | none => simp [createDope, hfr, hfa, hfe]
        | some e => simp [createDope, hfr, hfa, hfe, hv]
  · intro s uid dopeId b log h n hfind hh hn hlt
    have hv : hitCountValid (mergeDope log b).hit_count
        (mergeDope log b).shot_count = false := by
      rw [hh, hn]
      simp only [hitCountValid, decide_eq_false_iff_not]
      exact Nat.not_le.mpr hlt
    simp [updateDope, hfind, dopeRowValid, hv]
  · intro s hinv uid b s2 row h
    obtain ⟨hrow, hs2, -, -, -, -, hv⟩ := createDope_ok h
    subst hrow
    subst hs2
    intro l hl hc nc hhc hnc
    rcases List.mem_append.mp hl with hl | hl
    · exact hinv l hl hc nc hhc hnc
    · have : l = mkDopeRow s uid b := by simpa using hl
      subst this
      exact hitCountValid_true_le hv hc nc hhc hnc
  · intro s hinv uid dopeId b s2 row h
    obtain ⟨log, -, hrow, -, -, -, hlogs, -, -, -, hv⟩ := updateDope_ok h
    rw [dopeRowValid, Bool.and_eq_true] at hv
    intro l hl hc nc hhc hnc
    rw [hlogs] at hl
    obtain ⟨l0, hl0, hfl⟩ := List.mem_map.mp hl
    by_cases hcond : (l0.id == dopeId && l0.user_id == uid) = true
    · rw [if_pos hcond] at hfl
      subst hfl
      subst hrow
      exact hitCountValid_true_le hv.2 hc nc hhc hnc
    · rw [if_neg hcond] at hfl
      subst hfl
      exact hinv l0 hl0 hc nc hhc hnc

/-- C8 witness: creating a log with 5 hits of 3 shots on cardStore is
rejected with ValidationError. -/
theorem hit_count_le_shot_count_enforced_witness :
    badBody.hit_count = some 5 ∧ badBody.shot_count = some 3 ∧ 3 < 5 ∧
    createDope cardStore 1 badBody =
      Except.error ApiError.validationError :=
  ⟨rfl, rfl, by norm_num,
    hit_count_le_shot_count_enforced.2.1 cardStore 1 badBody 5 3 rfl rfl
      (by norm_num)⟩

/-! ## C2: same-owner checks on AmmoProfile and DOPELog writes -/

/-- After the update controller's changed-foreign-key check passes, the
merged rifle_id still resolves to a rifle of the same owner, provided the
current value resolved and a present body value is positive. -/
theorem mergedRifle_resolves {s : Store} {uid current ouid : ℕ}
    {body : Option ℕ}
    (hcur : ∃ r ∈ s.rifles, r.id = current ∧ r.user_id = ouid)
    (houid : ouid = uid) (hpos : ∀ x ∈ body, x ≠ 0)
    (hfk : fkRifleOk s uid current body = true) :
    ∃ r ∈ s.rifles, r.id = mergeField body current ∧ r.user_id = ouid := by
  cases body with
  | none => simpa [mergeField] using hcur
  | some rid =>
    by_cases heq : rid = current
    · simpa [mergeField, heq] using hcur
    · have hne0 : rid ≠ 0 := hpos rid (by simp)
      simp only [fkRifleOk] at hfk
      have hcond : (rid != 0 && rid != current) = true := by
        simp [hne0, heq]
      rw [if_pos hcond] at hfk
      obtain ⟨r, hfr⟩ := Option.isSome_iff_exists.mp hfk
      obtain ⟨hrm, hrid, hruid⟩ := findRifle_some hfr
      exact ⟨r, hrm, by simp [mergeField, hrid], by rw [hruid, houid]⟩

/-- The ammo_id analogue of mergedRifle_resolves. -/
theorem mergedAmmo_resolves {s : Store} {uid current ouid : ℕ}
    {body : Option ℕ}
    (hcur : ∃ a ∈ s.ammos, a.id = current ∧ a.user_id = ouid)
    (houid : ouid = uid) (hpos : ∀ x ∈ body, x ≠ 0)
    (hfk : fkAmmoOk s uid current body = true) :
    ∃ a ∈ s.ammos, a.id = mergeField body current ∧ a.user_id = ouid := by
  cases body with
  | none => simpa [mergeField] using hcur
  | some aid =>
    by_cases heq : aid = current
    · simpa [mergeField, heq] using hcur
    · have hne0 : aid ≠ 0 := hpos aid (by simp)
      simp only [fkAmmoOk] at hfk
      have hcond : (aid != 0 && aid != current) = true := by
        simp [hne0, heq]
      rw [if_pos hcond] at hfk
      obtain ⟨a, hfa⟩ := Option.isSome_iff_exists.mp hfk
      obtain ⟨ham, haid, hauid⟩ := findAmmo_some hfa
      exact ⟨a, ham, by simp [mergeField, haid], by rw [hauid, houid]⟩

/-- The environment_id analogue of mergedRifle_resolves. -/
theorem mergedEnv_resolves {s : Store} {uid current ouid : ℕ}
    {body : Option ℕ}
    (hcur : ∃ e ∈ s.envs, e.id = current ∧ e.user_id = ouid)
    (houid : ouid = uid) (hpos : ∀ x ∈ body, x ≠ 0)
    (hfk : fkEnvOk s uid current body = true) :
    ∃ e ∈ s.envs, e.id = mergeField body current ∧ e.user_id = ouid := by
  cases body with
  | none => simpa [mergeField] using hcur
  | some eid =>
    by_cases heq : eid = current
    · simpa [mergeField, heq] using hcur
    · have hne0 : eid ≠ 0 := hpos eid (by simp)
      simp only [fkEnvOk] at hfk
      have hcond : (eid != 0 && eid != current) = true := by
        simp [hne0, heq]
      rw [if_pos hcond] at hfk
      obtain ⟨e, hfe⟩ := Option.isSome_iff_exists.mp hfk
      obtain ⟨hem, heid, heuid⟩ := findEnv_some hfe
      exact ⟨e, hem, by simp [mergeField, heid], by rw [heuid, houid]⟩

/-- createAmmo preserves the same-owner invariant. -/
theorem sameOwnerInv_createAmmo {s : Store} {uid : ℕ} {b : AmmoBody}
    {s2 : Store} {row : AmmoRow} (hinv : sameOwnerInv s)
    (h : createAmmo s uid b = Except.ok (s2, row)) : sameOwnerInv s2 := by
  obtain ⟨hr, hrow, hs2⟩ := createAmmo_ok h
  obtain ⟨r, hfr⟩ := Option.isSome_iff_exists.mp hr
  obtain ⟨hrm, hrid, hruid⟩ := findRifle_some hfr
  subst hrow
  subst hs2
  constructor
  · intro a ha
    rcases List.mem_append.mp ha with ha | ha
    · exact hinv.1 a ha
    · have ha2 : a = ({ id := s.nextId, user_id := uid, rifle_id := b.rifle_id } : AmmoRow) := by
        simpa using ha
      subst ha2
      exact ⟨r, hrm, hrid, hruid⟩
  · intro l hl
    obtain ⟨h1, h2, h3⟩ := hinv.2 l hl
    refine ⟨h1, ?_, h3⟩
    obtain ⟨a, ham, haid, hauid⟩ := h2
    exact ⟨a, List.mem_append_left _ ham, haid, hauid⟩

/-- createDope preserves the same-owner invariant. -/
theorem sameOwnerInv_createDope {s : Store} {uid : ℕ} {b : DopeBody}
    {s2 : Store} {row : DopeRow} (hinv : sameOwnerInv s)
    (h : createDope s uid b = Except.ok (s2, row)) : sameOwnerInv s2 := by
  obtain ⟨hrow, hs2, hr, ha, he, -, -⟩ := createDope_ok h
  obtain ⟨r, hfr⟩ := Option.isSome_iff_exists.mp hr
  obtain ⟨a, hfa⟩ := Option.isSome_iff_exists.mp ha
  obtain ⟨e, hfe⟩ := Option.isSome_iff_exists.mp he
  obtain ⟨hrm, hrid, hruid⟩ := findRifle_some hfr
  obtain ⟨ham, haid, hauid⟩ := findAmmo_some hfa
  obtain ⟨hem, heid, heuid⟩ := findEnv_some hfe
  subst hrow
  subst hs2
  constructor
  · exact hinv.1
  · intro l hl
    rcases List.mem_append.mp hl with hl | hl
    · exact hinv.2 l hl
    · have hl2 : l = mkDopeRow s uid b := by simpa using hl
      subst hl2
      exact ⟨⟨r, hrm, hrid, hruid⟩, ⟨a, ham, haid, hauid⟩,
        ⟨e, hem, heid, heuid⟩⟩

/-- updateAmmo preserves the same-owner invariant for bodies that do not
carry user_id (bodies from the validated routes carry positive foreign
keys; a body that sets user_id reassigns the row's owner and breaks the
invariant — see update_body_user_id_persists_cross_owner). -/
theorem sameOwnerInv_updateAmmo {s : Store} {uid ammoId : ℕ}
    {b : AmmoUpdateBody} {s2 : Store} {row : AmmoRow}
    (hinv : sameOwnerInv s) (hpos : ammoBodyIdPos b)
    (hbu : b.user_id = none)
    (h : updateAmmo s uid ammoId b = Except.ok (s2, row)) :
    sameOwnerInv s2 := by
  obtain ⟨ammo, hfind, hrow, hrifles, henvs, hlogs, hammos, hfk⟩ :=
    updateAmmo_ok h
  rw [hbu] at hrow
  simp only [mergeField] at hrow
  obtain ⟨ham, haid, hauid⟩ := findAmmo_some hfind
  have hres : ∃ r ∈ s.rifles, r.id = mergeField b.rifle_id ammo.rifle_id ∧
      r.user_id = ammo.user_id :=
    mergedRifle_resolves (hinv.1 ammo ham) hauid hpos hfk
  constructor
  · intro a2 ha2
    rw [hammos] at ha2
    rw [hrifles]
    obtain ⟨a0, ha0, hfa0⟩ := List.mem_map.mp ha2
    by_cases hcond : (a0.id == ammoId && a0.user_id == uid) = true
    · rw [if_pos hcond] at hfa0
      subst hfa0
      subst hrow
      exact hres
    · rw [if_neg hcond] at hfa0
      subst hfa0
      exact hinv.1 a0 ha0
  · intro l hl
    rw [hlogs] at hl
    obtain ⟨h1, h2, h3⟩ := hinv.2 l hl
    refine ⟨by rw [hrifles]; exact h1, ?_, by rw [henvs]; exact h3⟩
    obtain ⟨a, ham2, haid2, hauid2⟩ := h2
    rw [hammos]
    by_cases hcond : (a.id == ammoId && a.user_id == uid) = true
    · simp only [Bool.and_eq_true, beq_iff_eq] at hcond
      refine ⟨row, List.mem_map.mpr ⟨a, ham2, by simp [hcond]⟩, ?_, ?_⟩
      · subst hrow
        show ammo.id = l.ammo_id
        rw [haid, ← hcond.1, haid2]
      · subst hrow
        show ammo.user_id = l.user_id
        rw [hauid, ← hcond.2, hauid2]
    · exact ⟨a, List.mem_map.mpr ⟨a, ham2, by rw [if_neg hcond]⟩, haid2,
        hauid2⟩

/-- updateDope preserves the same-owner invariant for bodies that do not
carry user_id (bodies from the validated routes carry positive foreign
keys; a body that sets user_id reassigns the row's owner and breaks the
invariant — see update_body_user_id_persists_cross_owner). -/
theorem sameOwnerInv_updateDope {s : Store} {uid dopeId : ℕ}
    {b : DopeUpdateBody} {s2 : Store} {row : DopeRow}
    (hinv : sameOwnerInv s) (hpos : dopeBodyIdsPos b)
    (hbu : b.user_id = none)
    (h : updateDope s uid dopeId b = Except.ok (s2, row)) :
    sameOwnerInv s2 := by
  obtain ⟨log, hfind, hrow, hrifles, hammos, henvs, hlogs, hfkr, hfka, hfke,
    -⟩ := updateDope_ok h
  obtain ⟨hlm, hlid, hluid⟩ := findDope_some hfind
  obtain ⟨hcr, hca, hce⟩ := hinv.2 log hlm
  obtain ⟨hp1, hp2, hp3⟩ := hpos
  have hu : (mergeDope log b).user_id = log.user_id := by
    show mergeField b.user_id log.user_id = log.user_id
    rw [hbu]
    rfl
  have hr := mergedRifle_resolves hcr hluid hp1 hfkr
  have ha := mergedAmmo_resolves hca hluid hp2 hfka
  have he := mergedEnv_resolves hce hluid hp3 hfke
  rw [← hu] at hr ha he
  constructor
  · intro a ha2
    rw [hammos] at ha2
    rw [hrifles]
    exact hinv.1 a ha2
  · intro l hl
    rw [hlogs] at hl
    obtain ⟨l0, hl0, hfl⟩ := List.mem_map.mp hl
    by_cases hcond : (l0.id == dopeId && l0.user_id == uid) = true
    · rw [if_pos hcond] at hfl
      subst hfl
      subst hrow
      exact ⟨by rw [hrifles]; exact hr, by rw [hammos]; exact ha,
        by rw [henvs]; exact he⟩
    · rw [if_neg hcond] at hfl
      subst hfl
      obtain ⟨h1, h2, h3⟩ := hinv.2 l0 hl0
      exact ⟨by rw [hrifles]; exact h1, by rw [hammos]; exact h2,
        by rw [henvs]; exact h3⟩

/-- An AmmoProfile update whose merged rifle reference does not resolve to a
rifle of the user fails with ValidationError. -/
theorem updateAmmo_unresolved_err {s : Store} {uid ammoId : ℕ}
    {b : AmmoUpdateBody} {ammo : AmmoRow} (hinv : sameOwnerInv s)
    (hpos : ammoBodyIdPos b) (hfind : findAmmo s ammoId uid = some ammo)
    (hnone : findRifle s (mergeField b.rifle_id ammo.rifle_id) uid = none) :
    updateAmmo s uid ammoId b = Except.error ApiError.validationError := by
  obtain ⟨ham, haid, hauid⟩ := findAmmo_some hfind
  apply updateAmmo_fkFail hfind
  by_contra hne
  rw [Bool.not_eq_false] at hne
  obtain ⟨r, hrm, hrid, hruid⟩ :=
    mergedRifle_resolves (hinv.1 ammo ham) hauid hpos hne
  have hsome := findRifle_isSome hrm hrid (hruid.trans hauid)
  rw [hnone] at hsome
  simp at hsome

/-- A DOPELog update one of whose merged parent references does not resolve
to a record of the user fails with ValidationError. -/
theorem updateDope_unresolved_err {s : Store} {uid dopeId : ℕ}
    {b : DopeUpdateBody} {log : DopeRow} (hinv : sameOwnerInv s)
    (hpos : dopeBodyIdsPos b) (hfind : findDope s dopeId uid = some log)
    (hnone : findRifle s (mergeField b.rifle_id log.rifle_id) uid = none ∨
      findAmmo s (mergeField b.ammo_id log.ammo_id) uid = none ∨
      findEnv s (mergeField b.environment_id log.environment_id) uid = none) :
    updateDope s uid dopeId b = Except.error ApiError.validationError := by
  obtain ⟨hlm, hlid, hluid⟩ := findDope_some hfind
  obtain ⟨hcr, hca, hce⟩ := hinv.2 log hlm
  obtain ⟨hp1, hp2, hp3⟩ := hpos
  apply updateDope_fkFail hfind
  by_contra hne
  rw [Bool.not_eq_false, Bool.and_eq_true, Bool.and_eq_true] at hne
  obtain ⟨⟨h1, h2⟩, h3⟩ := hne
  rcases hnone with hn | hn | hn
  · obtain ⟨r, hrm, hrid, hruid⟩ := mergedRifle_resolves hcr hluid hp1 h1
    have hsome := findRifle_isSome hrm hrid (hruid.trans hluid)
    rw [hn] at hsome
    simp at hsome
  · obtain ⟨a, ham, haid, hauid⟩ := mergedAmmo_resolves hca hluid hp2 h2
    have hsome := findAmmo_isSome ham haid (hauid.trans hluid)
    rw [hn] at hsome
    simp at hsome
  · obtain ⟨e, hem, heid, heuid⟩ := mergedEnv_resolves hce hluid hp3 h3
    have hsome := findEnv_isSome hem heid (heuid.trans hluid)
    rw [hn] at hsome
    simp at hsome

/-- C2 counterexample: the update controllers pass the body verbatim to
instance.update with no field whitelisting, so an update body carrying
user_id silently reassigns the row's owner.  Starting from a store
satisfying the same-owner invariant, user 1 updates their own ammo 20 with
the body { user_id: 2 }: the write succeeds (no ValidationError), and the
persisted ammo is owned by user 2 while still referencing rifle 10, which
user 1 owns — a record referencing a different owner's parent has been
silently persisted, falsifying the claimed invariant. -/
theorem update_body_user_id_persists_cross_owner :
    sameOwnerInv ownStore ∧
    updateAmmo ownStore 1 20 { user_id := some 2 } =
      Except.ok (ownStore2, crossAmmoRow) ∧
    crossAmmoRow ∈ ownStore2.ammos ∧
    crossAmmoRow.rifle_id = rifle1.id ∧ rifle1 ∈ ownStore2.rifles ∧
    rifle1.user_id = 1 ∧ crossAmmoRow.user_id = 2 ∧
    ¬ sameOwnerInv ownStore2 := by
  refine ⟨by unfold sameOwnerInv; decide, ?_, by decide, rfl, by decide,
    rfl, rfl, by unfold sameOwnerInv; decide⟩
  rfl

/-- C2 (amended): on every AmmoProfile or DOPELog create/update by user
uid, a parent reference (rifle_id, ammo_id or environment_id) that does not
resolve to a record owned by uid makes the write fail with ValidationError;
creates force the stored user_id to uid, so successful creates preserve the
invariant that no persisted AmmoProfile or DOPELog references another
owner's parent.  Successful updates preserve it only for bodies that do not
carry user_id (with foreign keys positive, as the route validation layer
guarantees with isInt min 1): the controllers pass the body verbatim to
instance.update with no field whitelisting, so a body that sets user_id
reassigns the row's owner and silently persists a record referencing the
previous owner's parents — see update_body_user_id_persists_cross_owner. -/
theorem ownership_checked_on_writes :
    (∀ (s : Store) (uid : ℕ) (b : AmmoBody),
      findRifle s b.rifle_id uid = none →
      createAmmo s uid b = Except.error ApiError.validationError) ∧
    (∀ (s : Store) (uid : ℕ) (b : DopeBody),
      (findRifle s b.rifle_id uid = none ∨ findAmmo s b.ammo_id uid = none ∨
        findEnv s b.environment_id uid = none) →
      createDope s uid b = Except.error ApiError.validationError) ∧
    (∀ (s : Store) (uid ammoId : ℕ) (b : AmmoUpdateBody) (ammo : AmmoRow),
      sameOwnerInv s → ammoBodyIdPos b → findAmmo s ammoId uid = some ammo →
      findRifle s (mergeField b.rifle_id ammo.rifle_id) uid = none →
      updateAmmo s uid ammoId b = Except.error ApiError.validationError) ∧
    (∀ (s : Store) (uid dopeId : ℕ) (b : DopeUpdateBody) (log : DopeRow),
      sameOwnerInv s → dopeBodyIdsPos b → findDope s dopeId uid = some log →
      (findRifle s (mergeField b.rifle_id log.rifle_id) uid = none ∨
        findAmmo s (mergeField b.ammo_id log.ammo_id) uid = none ∨
        findEnv s (mergeField b.environment_id log.environment_id) uid =
          none) →
      updateDope s uid dopeId b = Except.error ApiError.validationError) ∧
    (∀ (s : Store) (uid : ℕ) (b : AmmoBody) (s2 : Store) (row : AmmoRow),
      sameOwnerInv s → createAmmo s uid b = Except.ok (s2, row) →
      sameOwnerInv s2) ∧
    (∀ (s : Store) (uid : ℕ) (b : DopeBody) (s2 : Store) (row : DopeRow),
      sameOwnerInv s → createDope s uid b = Except.ok (s2, row) →
      sameOwnerInv s2) ∧
    (∀ (s : Store) (uid ammoId : ℕ) (b : AmmoUpdateBody) (s2 : Store)
      (row : AmmoRow), sameOwnerInv s → ammoBodyIdPos b → b.user_id = none →
      updateAmmo s uid ammoId b = Except.ok (s2, row) → sameOwnerInv s2) ∧
    (∀ (s : Store) (uid dopeId : ℕ) (b : DopeUpdateBody) (s2 : Store)
      (row : DopeRow), sameOwnerInv s → dopeBodyIdsPos b → b.user_id = none →
      updateDope s uid dopeId b = Except.ok (s2, row) → sameOwnerInv s2) := by
  refine ⟨?_, ?_, ?_, ?_, ?_, ?_, ?_, ?_⟩
  · intro s uid b h
    exact createAmmo_err h
  · intro s uid b h
    exact createDope_err h
  · intro s uid ammoId b ammo hinv hpos hfind hnone
    exact updateAmmo_unresolved_err hinv hpos hfind hnone
  · intro s uid dopeId b log hinv hpos hfind hnone
    exact updateDope_unresolved_err hinv hpos hfind hnone
  · intro s uid b s2 row hinv h
    exact sameOwnerInv_createAmmo hinv h
  · intro s uid b s2 row hinv h
    exact sameOwnerInv_createDope hinv h
  · intro s uid ammoId b s2 row hinv hpos hbu h
    exact sameOwnerInv_updateAmmo hinv hpos hbu h
  · intro s uid dopeId b s2 row hinv hpos hbu h
    exact sameOwnerInv_updateDope hinv hpos hbu h

/-- C2 witness: user 1 attempting to create an AmmoProfile on user 2's
rifle 11 fails with ValidationError. -/
theorem ownership_checked_on_writes_witness :
    findRifle crossStore 11 1 = none ∧
    createAmmo crossStore 1 { rifle_id := 11 } =
      Except.error ApiError.validationError :=
  ⟨rfl, ownership_checked_on_writes.1 crossStore 1 { rifle_id := 11 } rfl⟩

/-! ## C5: the DOPE card is ordered by normalized distance -/

/-- C5: for an owned (rifle, ammo) pair, getCard returns exactly the user's
logs for that pair, sorted ascending by the normalized distance_yards field;
on the mixed-unit store with logs entered as 100yd, 50m, 300yd the card
comes back in the order 50m, 100yd, 300yd (by yard-equivalents
54.6805 < 100 < 300, not by the raw distances 50 < 100 < 300). -/
theorem getCard_sorted_by_distance_yards :
    (∀ (s : Store) (uid rid aid : ℕ),
      (findRifle s rid uid).isSome → (findAmmo s aid uid).isSome →
      ∃ entries, getCard s uid (some rid) (some aid) = Except.ok entries ∧
        List.Sorted (fun x y : DopeCardEntry =>
          x.distance_yards ≤ y.distance_yards) entries ∧
        List.Perm entries ((cardLogs s uid rid aid).map projectEntry)) ∧
    getCard cardStore 1 (some 10) (some 20) =
      Except.ok [projectEntry log50m, projectEntry log100yd,
        projectEntry log300yd] ∧
    log50m.distance_unit = DistanceUnit.meters ∧ log50m.distance = 50 ∧
    log50m.distance_yards = 54.6805 := by
  refine ⟨?_, ?_, rfl, rfl, rfl⟩
  · intro s uid rid aid hr ha
    obtain ⟨r, hfr⟩ := Option.isSome_iff_exists.mp hr
    obtain ⟨a, hfa⟩ := Option.isSome_iff_exists.mp ha
    refine ⟨(List.insertionSort dopeRowLe (cardLogs s uid rid aid)).map
      projectEntry, ?_, ?_, ?_⟩
    · simp [getCard, hfr, hfa]
    · exact List.Pairwise.map projectEntry (fun x y hxy => hxy)
        (List.sorted_insertionSort dopeRowLe (cardLogs s uid rid aid))
    · exact (List.perm_insertionSort dopeRowLe
        (cardLogs s uid rid aid)).map projectEntry
  · norm_num [getCard, cardStore, findRifle, findAmmo, rifle1, ammo1,
      cardLogs, log100yd, log50m, log300yd, List.insertionSort,
      List.orderedInsert, dopeRowLe]

/-- C5 witness: the general clause applied to the mixed-unit store. -/
theorem getCard_sorted_by_distance_yards_witness :
    (findRifle cardStore 10 1).isSome ∧ (findAmmo cardStore 20 1).isSome ∧
    (∃ entries, getCard cardStore 1 (some 10) (some 20) =
        Except.ok entries ∧
      List.Sorted (fun x y : DopeCardEntry =>
        x.distance_yards ≤ y.distance_yards) entries ∧
      List.Perm entries ((cardLogs cardStore 1 10 20).map projectEntry)) :=
  ⟨rfl, rfl, getCard_sorted_by_distance_yards.1 cardStore 1 10 20 rfl rfl⟩

/-! ## C6: density_altitude across updates -/

/-- The hook on an always-set density_altitude recomputes exactly when the
set value is 0. -/
theorem envBeforeValidate_some (x t p a : ℚ) :
    envBeforeValidate (some x) t p a =
      if x = 0 then ((calculateDensityAltitude t p a : ℤ) : ℚ) else x := by
  by_cases hx : x = 0 <;> simp [envBeforeValidate, jsFalsy, hx]

/-- C6 counterexample: an environment created from (70°F, 29.92 inHg, 0 ft)
with no caller-supplied density_altitude stores the computed 1320; updating
only the temperature to 100°F keeps density_altitude = 1320, although
calculateDensityAltitude(100, 29.92, 0) = 4920 — the update leaves the
stored value inconsistent with the new temperature. -/
theorem update_keeps_stale_density_altitude :
    createEnv envStore0 1 envBody0 = Except.ok (envStore1, envRow1) ∧
    updateEnv envStore1 1 30 { temperature := some 100 } =
      Except.ok (envStore2, envRow2) ∧
    envRow2.temperature = 100 ∧ envRow2.pressure = 29.92 ∧
    envRow2.altitude = 0 ∧ envRow2.density_altitude = 1320 ∧
    calculateDensityAltitude envRow2.temperature envRow2.pressure
      envRow2.altitude = 4920 ∧
    envRow2.density_altitude ≠
      ((calculateDensityAltitude envRow2.temperature envRow2.pressure
        envRow2.altitude : ℤ) : ℚ) := by
  refine ⟨?_, ?_, rfl, rfl, rfl, rfl, ?_, ?_⟩
  · norm_num [createEnv, envFieldsValid, envBody0, envStore0, mkEnvRow,
      envBeforeValidate, jsFalsy, calculateDensityAltitude, round_eq,
      envStore1, envRow1]
  · norm_num [updateEnv, findEnv, envStore1, envRow1, mergeEnv, mergeField,
      envRowValid, envFieldsValid, envStored, envBeforeValidate, jsFalsy,
      envStore2, envRow2]
  · norm_num [envRow2, envRow1, calculateDensityAltitude, round_eq]
  · norm_num [envRow2, envRow1, calculateDensityAltitude, round_eq]

/-- C6 (amended): after a create, the stored density_altitude is the hook's
value — the computed calculateDensityAltitude(temperature, pressure,
altitude) whenever the caller-supplied value was falsy (absent, null or 0),
the caller's value verbatim otherwise.  After an update, density_altitude is
recomputed from the merged values only when the merged density_altitude is
0; an update that changes temperature, pressure or altitude while leaving a
non-zero density_altitude in place keeps the old value, which can be
inconsistent with the new inputs. -/
theorem density_altitude_recompute_policy :
    (∀ (s : Store) (uid : ℕ) (b : EnvBody) (s2 : Store) (row : EnvRow),
      createEnv s uid b = Except.ok (s2, row) →
        row.temperature = b.temperature ∧ row.pressure = b.pressure ∧
        row.altitude = b.altitude ∧
        row.density_altitude = envBeforeValidate b.density_altitude
          b.temperature b.pressure b.altitude ∧
        (jsFalsy b.density_altitude = true →
          row.density_altitude = ((calculateDensityAltitude b.temperature
            b.pressure b.altitude : ℤ) : ℚ))) ∧
    (∀ (s : Store) (uid envId : ℕ) (b : EnvUpdateBody) (s2 : Store)
      (row env : EnvRow), findEnv s envId uid = some env →
      updateEnv s uid envId b = Except.ok (s2, row) →
        row.temperature = (mergeEnv env b).temperature ∧
        row.pressure = (mergeEnv env b).pressure ∧
        row.altitude = (mergeEnv env b).altitude ∧
        row.density_altitude =
          (if (mergeEnv env b).density_altitude = 0 then
            ((calculateDensityAltitude (mergeEnv env b).temperature
              (mergeEnv env b).pressure (mergeEnv env b).altitude : ℤ) : ℚ)
          else (mergeEnv env b).density_altitude)) := by
  constructor
  · intro s uid b s2 row h
    obtain ⟨hrow, -⟩ := createEnv_ok h
    subst hrow
    refine ⟨rfl, rfl, rfl, rfl, ?_⟩
    intro hf
    show envBeforeValidate b.density_altitude b.temperature b.pressure
      b.altitude = _
    simp [envBeforeValidate, hf]
  · intro s uid envId b s2 row env hfind h
    obtain ⟨env2, hfind2, hrow, -⟩ := updateEnv_ok h
    rw [hfind] at hfind2
    injection hfind2 with henv
    subst henv
    subst hrow
    refine ⟨rfl, rfl, rfl, ?_⟩
    exact envBeforeValidate_some _ _ _ _

/-- C6 amended-claim witness: the create clause applied at the concrete
scenario (70°F, 29.92 inHg, sea level, density_altitude not supplied). -/
theorem density_altitude_recompute_policy_witness :
    createEnv envStore0 1 envBody0 = Except.ok (envStore1, envRow1) ∧
    (envRow1.temperature = envBody0.temperature ∧
      envRow1.pressure = envBody0.pressure ∧
      envRow1.altitude = envBody0.altitude ∧
      envRow1.density_altitude = envBeforeValidate envBody0.density_altitude
        envBody0.temperature envBody0.pressure envBody0.altitude ∧
      (jsFalsy envBody0.density_altitude = true →
        envRow1.density_altitude =
          ((calculateDensityAltitude envBody0.temperature envBody0.pressure
            envBody0.altitude : ℤ) : ℚ))) := by
  have hok : createEnv envStore0 1 envBody0 =
      Except.ok (envStore1, envRow1) := by
    norm_num [createEnv, envFieldsValid, envBody0, envStore0, mkEnvRow,
      envBeforeValidate, jsFalsy, calculateDensityAltitude, round_eq,
      envStore1, envRow1]
  exact ⟨hok,
    density_altitude_recompute_policy.1 envStore0 1 envBody0 envStore1
      envRow1 hok⟩

/-! ## C7: the per-rifle and per-ammo statistics -/

/-- C7 counterexample: on a store where user 1 owns ammo 20 with two linked
logs — one without hit data at 100 yards, one with hit data at 200 yards —
getAmmoStats reports dope_count = 1 and min_distance = 200, while the
user's logs linked to that ammo number 2 with minimum distance_yards 100:
the count and min/max are restricted to rows with non-null hit_percentage,
not computed over all linked rows as claimed. -/
theorem ammoStats_counts_only_nonnull_hit_percentage :
    getAmmoStats statsStore 1 20 = Except.ok
      { dope_count := 1, min_distance := some 200, max_distance := some 200,
        avg_accuracy := some 50, avg_group_size := some 1 } ∧
    (statsStore.logs.filter
      (fun l => l.user_id == 1 && l.ammo_id == 20)).length = 2 ∧
    sqlMin ((statsStore.logs.filter
      (fun l => l.user_id == 1 && l.ammo_id == 20)).map
        (fun l => l.distance_yards)) = some 100 := by
  refine ⟨?_, ?_, ?_⟩
  · norm_num [getAmmoStats, findAmmo, statsStore, ammo1, logNoHp, logHp50,
      sqlMin, sqlMax, sqlAvg, List.filterMap_cons]
  · norm_num [statsStore, logNoHp, logHp50]
  · norm_num [statsStore, logNoHp, logHp50, sqlMin]

/-- C7 (amended): getRifleStats computes ammo_count/dope_count and min/max
distance_yards over all rows linked to the rifle, with only avg
hit_percentage restricted to rows whose hit_percentage is non-null;
getAmmoStats restricts ALL of its aggregates (count, min/max, avg accuracy,
avg group size) to the rows with non-null hit_percentage.  Neither SQL
filters by user_id; the results are nevertheless scoped to the requesting
user's records because the rifle/ammo is verified owned and, under the
same-owner invariant (with unique ids), every linked log belongs to the same
user. -/
theorem stats_aggregation_characterization :
    (∀ (s : Store) (uid rifleId : ℕ) (stats : RifleStats),
      getRifleStats s uid rifleId = Except.ok stats →
        stats.ammo_count =
          (s.ammos.filter (fun a => a.rifle_id == rifleId)).length ∧
        stats.dope_count =
          (s.logs.filter (fun l => l.rifle_id == rifleId)).length ∧
        stats.min_distance = sqlMin ((s.logs.filter
          (fun l => l.rifle_id == rifleId)).map (fun l => l.distance_yards)) ∧
        stats.max_distance = sqlMax ((s.logs.filter
          (fun l => l.rifle_id == rifleId)).map (fun l => l.distance_yards)) ∧
        stats.avg_accuracy = sqlAvg ((s.logs.filter
          (fun l => l.rifle_id == rifleId && l.hit_percentage.isSome)).filterMap
            (fun l => l.hit_percentage))) ∧
    (∀ (s : Store) (uid ammoId : ℕ) (stats : AmmoStats),
      getAmmoStats s uid ammoId = Except.ok stats →
        stats.dope_count = (s.logs.filter
          (fun l => l.ammo_id == ammoId && l.hit_percentage.isSome)).length ∧
        stats.min_distance = sqlMin ((s.logs.filter
          (fun l => l.ammo_id == ammoId && l.hit_percentage.isSome)).map
            (fun l => l.distance_yards)) ∧
        stats.max_distance = sqlMax ((s.logs.filter
          (fun l => l.ammo_id == ammoId && l.hit_percentage.isSome)).map
            (fun l => l.distance_yards)) ∧
        stats.avg_accuracy = sqlAvg ((s.logs.filter
          (fun l => l.ammo_id == ammoId && l.hit_percentage.isSome)).filterMap
            (fun l => l.hit_percentage)) ∧
        stats.avg_group_size = sqlAvg ((s.logs.filter
          (fun l => l.ammo_id == ammoId && l.hit_percentage.isSome)).filterMap
            (fun l => l.group_size))) ∧
    (∀ (s : Store) (uid rifleId : ℕ), sameOwnerInv s →
      (s.rifles.map (fun r => r.id)).Nodup →
      (findRifle s rifleId uid).isSome →
      ∀ l ∈ s.logs, l.rifle_id = rifleId → l.user_id = uid) ∧
    (∀ (s : Store) (uid ammoId : ℕ), sameOwnerInv s →
      (s.ammos.map (fun a => a.id)).Nodup →
      (findAmmo s ammoId uid).isSome →
      ∀ l ∈ s.logs, l.ammo_id = ammoId → l.user_id = uid) := by
  refine ⟨?_, ?_, ?_, ?_⟩
  · intro s uid rifleId stats h
    unfold getRifleStats at h
    split at h
    · exact Except.noConfusion h
    · simp only [Except.ok.injEq] at h
      subst h
      exact ⟨rfl, rfl, rfl, rfl, rfl⟩
  · intro s uid ammoId stats h
    unfold getAmmoStats at h
    split at h
    · exact Except.noConfusion h
    · simp only [Except.ok.injEq] at h
      subst h
      exact ⟨rfl, rfl, rfl, rfl, rfl⟩
  · intro s uid rifleId hinv hnodup hsome l hl hlid
    obtain ⟨r, hfr⟩ := Option.isSome_iff_exists.mp hsome
    obtain ⟨hrm, hrid, hruid⟩ := findRifle_some hfr
    obtain ⟨⟨r2, hr2m, hr2id, hr2uid⟩, -, -⟩ := hinv.2 l hl
    have heq : r2 = r := List.inj_on_of_nodup_map hnodup hr2m hrm
      (by rw [hr2id, hlid, hrid])
    rw [← hr2uid, heq]
    exact hruid
  · intro s uid ammoId hinv hnodup hsome l hl hlid
    obtain ⟨a, hfa⟩ := Option.isSome_iff_exists.mp hsome
    obtain ⟨ham, haid, hauid⟩ := findAmmo_some hfa
    obtain ⟨-, ⟨a2, ha2m, ha2id, ha2uid⟩, -⟩ := hinv.2 l hl
    have heq : a2 = a := List.inj_on_of_nodup_map hnodup ha2m ham
      (by rw [ha2id, hlid, haid])
    rw [← ha2uid, heq]
    exact hauid

/-- C7 amended-claim witness: the ammo scoping clause applied to the
statistics store. -/
theorem stats_aggregation_characterization_witness :
    sameOwnerInv statsStore ∧
    (statsStore.ammos.map (fun a => a.id)).Nodup ∧
    (findAmmo statsStore 20 1).isSome ∧
    (∀ l ∈ statsStore.logs, l.ammo_id = 20 → l.user_id = 1) := by
  have h1 : sameOwnerInv statsStore := by
    constructor
    · intro a ha
      simp only [statsStore, List.mem_singleton] at ha
      subst ha
      exact ⟨rifle1, by simp [statsStore], rfl, rfl⟩
    · intro l hl
      have hl2 : l = logNoHp ∨ l = logHp50 := by
        simpa [statsStore] using hl
      rcases hl2 with rfl | rfl <;>
        exact ⟨⟨rifle1, by simp [statsStore], rfl, rfl⟩,
          ⟨ammo1, by simp [statsStore], rfl, rfl⟩,
          ⟨env1, by simp [statsStore], rfl, rfl⟩⟩
  refine ⟨h1, by simp [statsStore, ammo1], rfl, ?_⟩
  exact stats_aggregation_characterization.2.2.2 statsStore 1 20 h1
    (by simp [statsStore, ammo1]) rfl

end MobileDope
